import Mathlib

/-!
Verification of the cartouille map-annotation tool: the GeoJSON codec
(`elementToGeoJSON` / `geoJSONToElement`), the persistence layer
(`saveState` / `restoreState` / `handleImport`), the visibility store,
the drawing and measurement state machines, and the geodesy helper
`calculateDestination`.  All definitions are shallow embeddings of the
JavaScript source; numeric element data is embedded as `ℚ` (the codec
performs no arithmetic on it) and the real-valued geodesy of
`calculateDestination` is embedded over `ℝ`.
-/

namespace Cartouille

/-- A latitude/longitude pair, as the `{lat, lng}` objects of the source. -/
structure PointQ where
  lat : ℚ
  lng : ℚ
  deriving DecidableEq

/-- A GeoJSON position `[lng, lat]` (coordinate order of the wire format). -/
structure Pos where
  lng : ℚ
  lat : ℚ
  deriving DecidableEq

/-- The `{minLat, minLng, maxLat, maxLng}` record stored by bbox measurements. -/
structure BBoxQ where
  minLat : ℚ
  minLng : ℚ
  maxLat : ℚ
  maxLng : ℚ
  deriving DecidableEq

/-- JavaScript `a || b` on an optional string: `undefined` and the empty
string are falsy, any other string is returned unchanged. -/
def jsOrStr (a : Option String) (b : String) : String :=
  match a with
  | none => b
  | some s => if s = "" then b else s

/-- JavaScript `a || null` on an optional string (`null` is encoded as
`none`): falsy values collapse to `none`. -/
def jsOrNull (a : Option String) : Option String :=
  match a with
  | none => none
  | some s => if s = "" then none else some s

/-- JavaScript `if (x) { ... }` truthiness guard on an optional number:
`undefined` and `0` are falsy, so a guarded copy keeps any other value. -/
def jsTruthyNum (a : Option ℚ) : Option ℚ :=
  match a with
  | some v => if v = 0 then none else some v
  | none => none

/-- CONFIG.colors.default from `config.js`. -/
def defaultColor : String := "#3388ff"

instance {ε α : Type} [DecidableEq ε] [DecidableEq α] : DecidableEq (Except ε α)
  | .ok a, .ok b => decidable_of_iff (a = b) (by simp)
  | .error a, .error b => decidable_of_iff (a = b) (by simp)
  | .ok _, .error _ => isFalse (by simp)
  | .error _, .ok _ => isFalse (by simp)

/-- The dynamic `data` object of an element `{id, type, data}`: every key
that `elementToGeoJSON` or `geoJSONToElement` reads or writes, each
optional because JavaScript objects may lack any of them. -/
structure ElementData where
  title : Option String := none
  description : Option String := none
  color : Option String := none
  folderId : Option String := none
  lat : Option ℚ := none
  lng : Option ℚ := none
  center : Option PointQ := none
  radius : Option ℚ := none
  start : Option PointQ := none
  endPt : Option PointQ := none
  distance : Option ℚ := none
  bearing : Option ℚ := none
  cardinal : Option String := none
  points : Option (List PointQ) := none
  distanceM : Option ℚ := none
  distanceKm : Option ℚ := none
  areaM2 : Option ℚ := none
  areaHa : Option ℚ := none
  areaKm2 : Option ℚ := none
  perimeterM : Option ℚ := none
  perimeterKm : Option ℚ := none
  centroid : Option PointQ := none
  bbox : Option BBoxQ := none
  width : Option ℚ := none
  height : Option ℚ := none
  lengthM : Option ℚ := none
  lengthKm : Option ℚ := none
  alongDistance : Option ℚ := none
  alongPercent : Option ℚ := none
  alongPoint : Option PointQ := none
  deriving DecidableEq

/-- An element `{id, type, data}` as handled by the codec. -/
structure Element where
  id : Option String
  type : String
  data : ElementData
  deriving DecidableEq

/-- The `properties` object of a GeoJSON feature: every key the codec and
the persistence layer read or write.  The `_visible` flag injected by
`saveState` is the `visibleProp` field. -/
structure Props where
  id : Option String := none
  type : String := ""
  title : Option String := none
  description : Option String := none
  color : Option String := none
  folderId : Option String := none
  radius : Option ℚ := none
  distance : Option ℚ := none
  bearing : Option ℚ := none
  cardinal : Option String := none
  distanceM : Option ℚ := none
  distanceKm : Option ℚ := none
  areaM2 : Option ℚ := none
  areaHa : Option ℚ := none
  areaKm2 : Option ℚ := none
  perimeterM : Option ℚ := none
  perimeterKm : Option ℚ := none
  center : Option PointQ := none
  centroid : Option PointQ := none
  bbox : Option BBoxQ := none
  width : Option ℚ := none
  height : Option ℚ := none
  lengthM : Option ℚ := none
  lengthKm : Option ℚ := none
  alongDistance : Option ℚ := none
  alongPoint : Option PointQ := none
  visibleProp : Option Bool := none
  deriving DecidableEq

/-- Primitive GeoJSON geometries produced and consumed by the codec. -/
inductive PrimGeom where
  | point (coord : Pos)
  | lineString (coords : List Pos)
  | polygon (rings : List (List Pos))
  deriving DecidableEq

/-- A feature geometry: either a primitive geometry or a
`GeometryCollection` of primitives (the source only ever builds and reads
collections whose members are primitive). -/
inductive Geom where
  | prim (g : PrimGeom)
  | geometryCollection (geoms : List PrimGeom)
  deriving DecidableEq

/-- A GeoJSON feature `{id, geometry, properties}`. -/
structure Feature where
  id : Option String := none
  geometry : Geom
  properties : Props
  deriving DecidableEq

/-- External `turf.point(coords, properties)`: turf validates that the
position holds numbers, which in the source can only fail when the element
data lacks the coordinate (an `undefined` entry). -/
def turfPoint (lng lat : Option ℚ) (props : Props) : Except String Feature :=
  match lng, lat with
  | some lg, some lt => .ok { geometry := .prim (.point ⟨lg, lt⟩), properties := props }
  | _, _ => .error "coordinates must contain numbers"

/-- External `turf.lineString(coords, properties)`: turf rejects fewer than
two positions. -/
def turfLineStringGeom (coords : List Pos) : Except String PrimGeom :=
  if coords.length < 2 then
    .error "coordinates must be an array of two or more positions"
  else
    .ok (.lineString coords)

/-- External `turf.lineString(coords, properties)` as a feature. -/
def turfLineString (coords : List Pos) (props : Props) : Except String Feature := do
  let g ← turfLineStringGeom coords
  .ok { geometry := .prim g, properties := props }

/-- External `turf.polygon(rings, properties)`: turf rejects a linear ring
with fewer than four positions or whose first and last positions differ. -/
def turfPolygonGeom (rings : List (List Pos)) : Except String PrimGeom :=
  if rings.any (fun ring => ring.length < 4) then
    .error "Each LinearRing of a Polygon must have 4 or more Positions."
  else if rings.any (fun ring => ring.head? ≠ ring.getLast?) then
    .error "First and last Position are not equivalent."
  else
    .ok (.polygon rings)

/-- External `turf.polygon(rings, properties)` as a feature. -/
def turfPolygon (rings : List (List Pos)) (props : Props) : Except String Feature := do
  let g ← turfPolygonGeom rings
  .ok { geometry := .prim g, properties := props }

/-- External `turf.bboxPolygon([minLng, minLat, maxLng, maxLat])`: the
rectangle ring of the bounding box. -/
def turfBboxPolygon (b : BBoxQ) : PrimGeom :=
  .polygon [[⟨b.minLng, b.minLat⟩, ⟨b.maxLng, b.minLat⟩, ⟨b.maxLng, b.maxLat⟩,
             ⟨b.minLng, b.maxLat⟩, ⟨b.minLng, b.minLat⟩]]

/-- Convert an element to a GeoJSON feature (`elementToGeoJSON` in
`geojson.js`).  A `.error` result is a thrown JavaScript exception
(a `TypeError` on an `undefined` field access, or a turf validation
error); the source returns `null` for an unknown type, embedded as
`.error "null"`. -/
def elementToGeoJSON (e : Element) : Except String Feature := do
  let data := e.data
  let properties : Props :=
    { id := e.id
      type := e.type
      title := some (jsOrStr data.title "")
      description := some (jsOrStr data.description "")
      color := some (jsOrStr data.color defaultColor)
      folderId := jsOrNull data.folderId }
  let feature : Feature ←
    match e.type with
    | "marker" => turfPoint data.lng data.lat properties
    | "circle" =>
        match data.center with
        | none => .error "TypeError: Cannot read properties of undefined"
        | some c =>
            turfPoint (some c.lng) (some c.lat) ({ properties with radius := data.radius })
    | "line" | "bearing" =>
        match data.start, data.endPt with
        | some s, some en =>
            turfLineString [⟨s.lng, s.lat⟩, ⟨en.lng, en.lat⟩]
              { properties with
                  distance := data.distance
                  bearing := data.bearing }
        | _, _ => .error "TypeError: Cannot read properties of undefined"
    | "polygon" =>
        match data.points with
        | none => .error "TypeError: Cannot read properties of undefined"
        | some ps =>
            turfPolygon [ps.map (fun p => ⟨p.lng, p.lat⟩)] properties
    | "measurement-distance" | "measurement-bearing" =>
        match data.start, data.endPt with
        | some s, some en =>
            turfLineString [⟨s.lng, s.lat⟩, ⟨en.lng, en.lat⟩]
              { properties with
                  distanceM := data.distanceM
                  distanceKm := data.distanceKm
                  bearing := data.bearing
                  cardinal := if data.bearing ≠ none then data.cardinal else none }
        | _, _ => .error "TypeError: Cannot read properties of undefined"
    | "measurement-area" =>
        match data.points with
        | none => .error "TypeError: Cannot read properties of undefined"
        | some ps =>
            let areaCoords := ps.map (fun p => (⟨p.lng, p.lat⟩ : Pos))
            match areaCoords.head? with
            | none => .error "TypeError: Cannot read properties of undefined"
            | some c0 =>
                turfPolygon [areaCoords ++ [c0]]
                  { properties with
                      areaM2 := data.areaM2
                      areaHa := data.areaHa
                      areaKm2 := data.areaKm2
                      perimeterM := data.perimeterM
                      perimeterKm := data.perimeterKm }
    | "measurement-center" | "measurement-centroid" =>
        let centerPoint := if e.type = "measurement-center" then data.center else data.centroid
        match centerPoint, data.points with
        | some cp, some ps =>
            let polyCoords := ps.map (fun p => (⟨p.lng, p.lat⟩ : Pos))
            match polyCoords.head? with
            | none => .error "TypeError: Cannot read properties of undefined"
            | some c0 => do
                let polyG ← turfPolygonGeom [polyCoords ++ [c0]]
                .ok { geometry := .geometryCollection [polyG, .point ⟨cp.lng, cp.lat⟩]
                      properties :=
                        { properties with
                            center := if e.type = "measurement-center" then some cp else none
                            centroid := if e.type = "measurement-center" then none else some cp
                            areaM2 := jsTruthyNum data.areaM2
                            areaHa := jsTruthyNum data.areaHa } }
        | _, _ => .error "TypeError: Cannot read properties of undefined"
    | "measurement-bbox" =>
        match data.bbox, data.points with
        | some bb, some ps =>
            let bboxCoords := ps.map (fun p => (⟨p.lng, p.lat⟩ : Pos))
            match bboxCoords.head? with
            | none => .error "TypeError: Cannot read properties of undefined"
            | some c0 => do
                let origPolyG ← turfPolygonGeom [bboxCoords ++ [c0]]
                .ok { geometry := .geometryCollection [origPolyG, turfBboxPolygon bb]
                      properties :=
                        { properties with
                            bbox := some bb
                            width := data.width
                            height := data.height } }
        | _, _ => .error "TypeError: Cannot read properties of undefined"
    | "measurement-along" =>
        match data.points, data.alongPoint with
        | some ps, some ap => do
            let alongLineG ← turfLineStringGeom (ps.map (fun p => ⟨p.lng, p.lat⟩))
            .ok { geometry := .geometryCollection [alongLineG, .point ⟨ap.lng, ap.lat⟩]
                  properties :=
                    { properties with
                        lengthM := data.lengthM
                        lengthKm := data.lengthKm
                        alongDistance := data.alongDistance
                        alongPoint := data.alongPoint } }
        | _, _ => .error "TypeError: Cannot read properties of undefined"
    | _ => .error "null"
  .ok { feature with id := e.id }

/-- JavaScript truthiness of an optional string used as `feature.id || props.id`. -/
def jsOrOptStr (a b : Option String) : Option String :=
  match a with
  | none => b
  | some s => if s = "" then b else some s

/-- Convert a GeoJSON feature back to an element (`geoJSONToElement` in
`geojson.js`).  A `.error` result is a thrown `TypeError` from a geometry
whose shape does not match the expected access pattern. -/
def geoJSONToElement (f : Feature) : Except String Element := do
  let props := f.properties
  let geom := f.geometry
  let type := props.type
  let id := jsOrOptStr f.id props.id
  let base : ElementData :=
    { title := some (jsOrStr props.title "")
      description := some (jsOrStr props.description "")
      color := some (jsOrStr props.color defaultColor) }
  let data : ElementData ←
    match type with
    | "marker" =>
        match geom with
        | .prim (.point c) => .ok { base with lat := some c.lat, lng := some c.lng }
        | _ => .error "TypeError"
    | "circle" =>
        match geom with
        | .prim (.point c) =>
            .ok { base with
                    center := some ⟨c.lat, c.lng⟩
                    radius := props.radius }
        | _ => .error "TypeError"
    | "line" | "bearing" =>
        match geom with
        | .prim (.lineString (c0 :: c1 :: _)) =>
            .ok { base with
                    start := some ⟨c0.lat, c0.lng⟩
                    endPt := some ⟨c1.lat, c1.lng⟩
                    distance := jsTruthyNum props.distance
                    bearing := props.bearing }
        | _ => .error "TypeError"
    | "polygon" =>
        match geom with
        | .prim (.polygon (r0 :: _)) =>
            .ok { base with
                    points := some (r0.dropLast.map (fun c => ⟨c.lat, c.lng⟩)) }
        | _ => .error "TypeError"
    | "measurement-distance" | "measurement-bearing" =>
        match geom with
        | .prim (.lineString (c0 :: c1 :: _)) =>
            .ok { base with
                    start := some ⟨c0.lat, c0.lng⟩
                    endPt := some ⟨c1.lat, c1.lng⟩
                    distanceM := props.distanceM
                    distanceKm := props.distanceKm
                    bearing := props.bearing
                    cardinal := if props.bearing ≠ none then props.cardinal else none }
        | _ => .error "TypeError"
    | "measurement-area" =>
        match geom with
        | .prim (.polygon (r0 :: _)) =>
            .ok { base with
                    points := some (r0.dropLast.map (fun c => ⟨c.lat, c.lng⟩))
                    areaM2 := props.areaM2
                    areaHa := props.areaHa
                    areaKm2 := props.areaKm2
                    perimeterM := props.perimeterM
                    perimeterKm := props.perimeterKm }
        | _ => .error "TypeError"
    | "measurement-center" | "measurement-centroid" =>
        match geom with
        | .geometryCollection gs =>
            match gs.head? with
            | some (.polygon (r0 :: _)) => do
                let pts := r0.dropLast.map (fun c => (⟨c.lat, c.lng⟩ : PointQ))
                let stored := if type = "measurement-center" then props.center else props.centroid
                let cp : PointQ ← match stored with
                  | some c => .ok c
                  | none =>
                      match gs.get? 1 with
                      | some (PrimGeom.point c) => .ok (⟨c.lat, c.lng⟩ : PointQ)
                      | _ => .error "TypeError"
                .ok { base with
                        points := some pts
                        center := if type = "measurement-center" then some cp else none
                        centroid := if type = "measurement-center" then none else some cp
                        areaM2 := jsTruthyNum props.areaM2
                        areaHa := jsTruthyNum props.areaHa }
            | _ => .error "TypeError"
        | _ => .error "TypeError"
    | "measurement-bbox" =>
        match geom with
        | .geometryCollection gs =>
            match gs.head? with
            | some (.polygon (r0 :: _)) =>
                .ok { base with
                        points := some (r0.dropLast.map (fun c => ⟨c.lat, c.lng⟩))
                        bbox := props.bbox
                        width := props.width
                        height := props.height }
            | _ => .error "TypeError"
        | _ => .error "TypeError"
    | "measurement-along" =>
        match geom with
        | .geometryCollection gs =>
            match gs.head? with
            | some (.lineString cs) => do
                let ap : PointQ ← match props.alongPoint with
                  | some c => .ok c
                  | none =>
                      match gs.get? 1 with
                      | some (PrimGeom.point c) => .ok (⟨c.lat, c.lng⟩ : PointQ)
                      | _ => .error "TypeError"
                .ok { base with
                        points := some (cs.map (fun c => ⟨c.lat, c.lng⟩))
                        alongPoint := some ap
                        lengthM := props.lengthM
                        lengthKm := props.lengthKm
                        alongDistance := props.alongDistance }
            | _ => .error "TypeError"
        | _ => .error "TypeError"
    | _ => .ok base
  .ok { id := id, type := type, data := data }

/-- The encode-then-decode round trip of the claimed law
`geoJSONToElement(elementToGeoJSON(e))`. -/
def roundtripElement (e : Element) : Except String Element := do
  let f ← elementToGeoJSON e
  geoJSONToElement f


/-- The element the round trip actually returns for a valid element: the
original with `folderId` dropped (the decoder never restores it), a
polygon's closing point removed, a bbox measurement's `areaM2`/`areaHa`
dropped, and an along measurement's `alongPercent` dropped. -/
def roundtripScrub (e : Element) : Element :=
  let d := e.data
  let d' : ElementData :=
    if e.type = "polygon" then
      { d with folderId := none, points := d.points.map List.dropLast }
    else if e.type = "measurement-bbox" then
      { d with folderId := none, areaM2 := none, areaHa := none }
    else if e.type = "measurement-along" then
      { d with folderId := none, alongPercent := none }
    else
      { d with folderId := none }
  ⟨e.id, e.type, d'⟩

/-- Valid elements of the data model, one constructor per kind: the
per-kind payload and derived fields are present with the expected shapes.
The side conditions record where the codec uses JavaScript truthiness
(colors must be non-empty, truthiness-guarded numeric fields must not be
zero) and that polygon point lists carry the closing point the encoder
requires. -/
inductive ValidElement : Element → Prop where
  | marker (id' : Option String) (t d c : String) (hc : c ≠ "")
      (fid : Option String) (lat lng : ℚ) :
      ValidElement ⟨id', "marker",
        { title := some t, description := some d, color := some c,
          folderId := fid, lat := some lat, lng := some lng }⟩
  | circle (id' : Option String) (t d c : String) (hc : c ≠ "")
      (fid : Option String) (ctr : PointQ) (radius : Option ℚ) :
      ValidElement ⟨id', "circle",
        { title := some t, description := some d, color := some c,
          folderId := fid, center := some ctr, radius := radius }⟩
  | line (id' : Option String) (t d c : String) (hc : c ≠ "")
      (fid : Option String) (s en : PointQ) (dist : Option ℚ) (hdist : dist ≠ some 0) :
      ValidElement ⟨id', "line",
        { title := some t, description := some d, color := some c,
          folderId := fid, start := some s, endPt := some en, distance := dist }⟩
  | bearing (id' : Option String) (t d c : String) (hc : c ≠ "")
      (fid : Option String) (s en : PointQ) (dist : Option ℚ) (hdist : dist ≠ some 0)
      (brg : Option ℚ) :
      ValidElement ⟨id', "bearing",
        { title := some t, description := some d, color := some c,
          folderId := fid, start := some s, endPt := some en,
          distance := dist, bearing := brg }⟩
  | polygon (id' : Option String) (t d c : String) (hc : c ≠ "")
      (fid : Option String) (ps : List PointQ) (p0 : PointQ)
      (h0 : ps.head? = some p0) (hlen : 3 ≤ ps.length) :
      ValidElement ⟨id', "polygon",
        { title := some t, description := some d, color := some c,
          folderId := fid, points := some (ps ++ [p0]) }⟩
  | mdistance (id' : Option String) (t d c : String) (hc : c ≠ "")
      (fid : Option String) (s en : PointQ) (dM dKm : Option ℚ) :
      ValidElement ⟨id', "measurement-distance",
        { title := some t, description := some d, color := some c,
          folderId := fid, start := some s, endPt := some en,
          distanceM := dM, distanceKm := dKm }⟩
  | mbearing (id' : Option String) (t d c : String) (hc : c ≠ "")
      (fid : Option String) (s en : PointQ) (dM dKm : Option ℚ)
      (brg : ℚ) (card : Option String) :
      ValidElement ⟨id', "measurement-bearing",
        { title := some t, description := some d, color := some c,
          folderId := fid, start := some s, endPt := some en,
          distanceM := dM, distanceKm := dKm,
          bearing := some brg, cardinal := card }⟩
  | marea (id' : Option String) (t d c : String) (hc : c ≠ "")
      (fid : Option String) (ps : List PointQ) (hlen : 3 ≤ ps.length)
      (aM2 aHa aKm2 pM pKm : Option ℚ) :
      ValidElement ⟨id', "measurement-area",
        { title := some t, description := some d, color := some c,
          folderId := fid, points := some ps,
          areaM2 := aM2, areaHa := aHa, areaKm2 := aKm2,
          perimeterM := pM, perimeterKm := pKm }⟩
  | mcenter (id' : Option String) (t d c : String) (hc : c ≠ "")
      (fid : Option String) (ps : List PointQ) (hlen : 3 ≤ ps.length)
      (ctr : PointQ) (aM2 aHa : Option ℚ)
      (hM2 : aM2 ≠ some 0) (hHa : aHa ≠ some 0) :
      ValidElement ⟨id', "measurement-center",
        { title := some t, description := some d, color := some c,
          folderId := fid, points := some ps, center := some ctr,
          areaM2 := aM2, areaHa := aHa }⟩
  | mcentroid (id' : Option String) (t d c : String) (hc : c ≠ "")
      (fid : Option String) (ps : List PointQ) (hlen : 3 ≤ ps.length)
      (ctr : PointQ) (aM2 aHa : Option ℚ)
      (hM2 : aM2 ≠ some 0) (hHa : aHa ≠ some 0) :
      ValidElement ⟨id', "measurement-centroid",
        { title := some t, description := some d, color := some c,
          folderId := fid, points := some ps, centroid := some ctr,
          areaM2 := aM2, areaHa := aHa }⟩
  | mbbox (id' : Option String) (t d c : String) (hc : c ≠ "")
      (fid : Option String) (ps : List PointQ) (hlen : 3 ≤ ps.length)
      (bb : BBoxQ) (w hgt : Option ℚ) (aM2 aHa : Option ℚ) :
      ValidElement ⟨id', "measurement-bbox",
        { title := some t, description := some d, color := some c,
          folderId := fid, points := some ps, bbox := some bb,
          width := w, height := hgt, areaM2 := aM2, areaHa := aHa }⟩
  | malong (id' : Option String) (t d c : String) (hc : c ≠ "")
      (fid : Option String) (ps : List PointQ) (hlen : 2 ≤ ps.length)
      (ap : PointQ) (lM lKm aD aP : Option ℚ) :
      ValidElement ⟨id', "measurement-along",
        { title := some t, description := some d, color := some c,
          folderId := fid, points := some ps, alongPoint := some ap,
          lengthM := lM, lengthKm := lKm,
          alongDistance := aD, alongPercent := aP }⟩

theorem jsOrStr_some_empty (t : String) : jsOrStr (some t) "" = t := by
  unfold jsOrStr; split <;> simp_all

theorem jsOrStr_some_ne (c dflt : String) (hc : c ≠ "") : jsOrStr (some c) dflt = c := by
  simp [jsOrStr, hc]

theorem jsOrOptStr_self (a : Option String) : jsOrOptStr a a = a := by
  unfold jsOrOptStr; cases a with
  | none => rfl
  | some s => split <;> simp_all

theorem pos_roundtrip (ps : List PointQ) :
    (ps.map (fun p => (⟨p.lng, p.lat⟩ : Pos))).map (fun c => (⟨c.lat, c.lng⟩ : PointQ)) = ps := by
  rw [List.map_map]
  exact List.map_id ps

theorem pos_roundtrip_comp (qs : List PointQ) :
    List.map ((fun c : Pos => (⟨c.lat, c.lng⟩ : PointQ)) ∘ fun p : PointQ => (⟨p.lng, p.lat⟩ : Pos)) qs = qs :=
  List.map_id qs

theorem jsTruthyNum_eq (a : Option ℚ) (ha : a ≠ some 0) : jsTruthyNum a = a := by
  cases a with
  | none => rfl
  | some v =>
      have hv : v ≠ 0 := fun h => ha (by rw [h])
      simp [jsTruthyNum, hv]

theorem getLast?_cons_append_singleton {α : Type} (a b : α) (l : List α) :
    (a :: (l ++ [b])).getLast? = some b := by
  rw [← List.cons_append, List.getLast?_concat]

theorem dropLast_cons_append_singleton {α : Type} (a b : α) (l : List α) :
    (a :: (l ++ [b])).dropLast = a :: l := by
  rw [← List.cons_append, List.dropLast_concat]

/-- C1: the round trip `geoJSONToElement (elementToGeoJSON e)` is NOT the
identity; as amended, for every valid entity of any kind (with lines and
bearings in their two-point start/end form, polygon point lists carrying
the encoder-required closing point, and truthiness-guarded numeric fields
non-zero) the round trip succeeds and returns the element with `folderId`
dropped, a polygon's closing point removed, a bbox measurement's
`areaM2`/`areaHa` dropped, and an along measurement's `alongPercent`
dropped; all other fields — multi-point along lines, a line's distance,
and every other derived field — are recovered unchanged. -/
theorem roundtripElement_eq_scrub (e : Element) (h : ValidElement e) :
    roundtripElement e = .ok (roundtripScrub e) := by
  cases h with
  | marker id' t d c hc fid lat lng =>
      simp [roundtripElement, elementToGeoJSON, geoJSONToElement, roundtripScrub,
        turfPoint, jsOrStr_some_empty, jsOrStr_some_ne _ _ hc, jsOrOptStr_self,
        Bind.bind, Except.bind]
  | circle id' t d c hc fid ctr radius =>
      simp [roundtripElement, elementToGeoJSON, geoJSONToElement, roundtripScrub,
        turfPoint, jsOrStr_some_empty, jsOrStr_some_ne _ _ hc, jsOrOptStr_self,
        Bind.bind, Except.bind]
  | line id' t d c hc fid s en dist hdist =>
      simp [roundtripElement, elementToGeoJSON, geoJSONToElement, roundtripScrub,
        turfLineString, turfLineStringGeom, jsOrStr_some_empty, jsOrStr_some_ne _ _ hc,
        jsOrOptStr_self, jsTruthyNum_eq _ hdist, Bind.bind, Except.bind]
  | bearing id' t d c hc fid s en dist hdist brg =>
      simp [roundtripElement, elementToGeoJSON, geoJSONToElement, roundtripScrub,
        turfLineString, turfLineStringGeom, jsOrStr_some_empty, jsOrStr_some_ne _ _ hc,
        jsOrOptStr_self, jsTruthyNum_eq _ hdist, Bind.bind, Except.bind]
  | polygon id' t d c hc fid ps p0 h0 hlen =>
      obtain ⟨qs, rfl⟩ : ∃ qs, ps = p0 :: qs := by
        cases ps with
        | nil => simp at h0
        | cons a as =>
            simp only [List.head?_cons, Option.some.injEq] at h0
            exact ⟨as, by rw [h0]⟩
      have h4 : ¬ (qs.length + 1 + 1 < 4) := by
        simp only [List.length_cons] at hlen; omega
      simp [roundtripElement, elementToGeoJSON, geoJSONToElement, roundtripScrub,
        turfPolygon, turfPolygonGeom, jsOrStr_some_empty, jsOrStr_some_ne _ _ hc,
        jsOrOptStr_self, getLast?_cons_append_singleton, dropLast_cons_append_singleton,
        pos_roundtrip, pos_roundtrip_comp, h4, Bind.bind, Except.bind]
  | mdistance id' t d c hc fid s en dM dKm =>
      simp [roundtripElement, elementToGeoJSON, geoJSONToElement, roundtripScrub,
        turfLineString, turfLineStringGeom, jsOrStr_some_empty, jsOrStr_some_ne _ _ hc,
        jsOrOptStr_self, Bind.bind, Except.bind]
  | mbearing id' t d c hc fid s en dM dKm brg card =>
      simp [roundtripElement, elementToGeoJSON, geoJSONToElement, roundtripScrub,
        turfLineString, turfLineStringGeom, jsOrStr_some_empty, jsOrStr_some_ne _ _ hc,
        jsOrOptStr_self, Bind.bind, Except.bind]
  | marea id' t d c hc fid ps hlen aM2 aHa aKm2 pM pKm =>
      obtain ⟨q, qs, rfl⟩ : ∃ q qs, ps = q :: qs := by
        cases ps with
        | nil => simp at hlen
        | cons a as => exact ⟨a, as, rfl⟩
      have h4 : ¬ (qs.length + 1 + 1 < 4) := by
        simp only [List.length_cons] at hlen; omega
      simp [roundtripElement, elementToGeoJSON, geoJSONToElement, roundtripScrub,
        turfPolygon, turfPolygonGeom, jsOrStr_some_empty, jsOrStr_some_ne _ _ hc,
        jsOrOptStr_self, getLast?_cons_append_singleton, dropLast_cons_append_singleton,
        pos_roundtrip, pos_roundtrip_comp, h4, Bind.bind, Except.bind]
  | mcenter id' t d c hc fid ps hlen ctr aM2 aHa hM2 hHa =>
      obtain ⟨q, qs, rfl⟩ : ∃ q qs, ps = q :: qs := by
        cases ps with
        | nil => simp at hlen
        | cons a as => exact ⟨a, as, rfl⟩
      have h4 : ¬ (qs.length + 1 + 1 < 4) := by
        simp only [List.length_cons] at hlen; omega
      simp [roundtripElement, elementToGeoJSON, geoJSONToElement, roundtripScrub,
        turfPolygonGeom, jsOrStr_some_empty, jsOrStr_some_ne _ _ hc,
        jsOrOptStr_self, getLast?_cons_append_singleton, dropLast_cons_append_singleton,
        pos_roundtrip, pos_roundtrip_comp, jsTruthyNum_eq _ hM2, jsTruthyNum_eq _ hHa, h4,
        Bind.bind, Except.bind]
  | mcentroid id' t d c hc fid ps hlen ctr aM2 aHa hM2 hHa =>
      obtain ⟨q, qs, rfl⟩ : ∃ q qs, ps = q :: qs := by
        cases ps with
        | nil => simp at hlen
        | cons a as => exact ⟨a, as, rfl⟩
      have h4 : ¬ (qs.length + 1 + 1 < 4) := by
        simp only [List.length_cons] at hlen; omega
      simp [roundtripElement, elementToGeoJSON, geoJSONToElement, roundtripScrub,
        turfPolygonGeom, jsOrStr_some_empty, jsOrStr_some_ne _ _ hc,
        jsOrOptStr_self, getLast?_cons_append_singleton, dropLast_cons_append_singleton,
        pos_roundtrip, pos_roundtrip_comp, jsTruthyNum_eq _ hM2, jsTruthyNum_eq _ hHa, h4,
        Bind.bind, Except.bind]
  | mbbox id' t d c hc fid ps hlen bb w hgt aM2 aHa =>
      obtain ⟨q, qs, rfl⟩ : ∃ q qs, ps = q :: qs := by
        cases ps with
        | nil => simp at hlen
        | cons a as => exact ⟨a, as, rfl⟩
      have h4 : ¬ (qs.length + 1 + 1 < 4) := by
        simp only [List.length_cons] at hlen; omega
      simp [roundtripElement, elementToGeoJSON, geoJSONToElement, roundtripScrub,
        turfPolygonGeom, jsOrStr_some_empty, jsOrStr_some_ne _ _ hc,
        jsOrOptStr_self, getLast?_cons_append_singleton, dropLast_cons_append_singleton,
        pos_roundtrip, pos_roundtrip_comp, h4, Bind.bind, Except.bind]
  | malong id' t d c hc fid ps hlen ap lM lKm aD aP =>
      have h2 : ¬ (ps.length < 2) := Nat.not_lt.mpr hlen
      simp [roundtripElement, elementToGeoJSON, geoJSONToElement, roundtripScrub,
        turfLineStringGeom, jsOrStr_some_empty, jsOrStr_some_ne _ _ hc,
        jsOrOptStr_self, pos_roundtrip, pos_roundtrip_comp, h2, Bind.bind, Except.bind]

/-- Witness for the amended C1 theorem: a concrete marker element with a
folder reference round-trips to its scrubbed form. -/
theorem roundtripElement_eq_scrub_witness :
    roundtripElement
      ⟨some "a1", "marker",
        { title := some "Marqueur", description := some "", color := some "#e74c3c",
          folderId := some "f1", lat := some 45, lng := some 5 }⟩ =
    .ok (roundtripScrub
      ⟨some "a1", "marker",
        { title := some "Marqueur", description := some "", color := some "#e74c3c",
          folderId := some "f1", lat := some 45, lng := some 5 }⟩) :=
  roundtripElement_eq_scrub _
    (ValidElement.marker (some "a1") "Marqueur" "" "#e74c3c" (by decide) (some "f1") 45 5)

/-- C1 counterexample: for a concrete valid marker entity carrying a
`folderId`, the round trip does not reproduce the entity field-for-field —
`geoJSONToElement` never restores `folderId`. -/
theorem roundtrip_drops_folderId :
    roundtripElement
      ⟨some "a1", "marker",
        { title := some "Marqueur", description := some "", color := some "#e74c3c",
          folderId := some "f1", lat := some 45, lng := some 5 }⟩ ≠
    .ok ⟨some "a1", "marker",
        { title := some "Marqueur", description := some "", color := some "#e74c3c",
          folderId := some "f1", lat := some 45, lng := some 5 }⟩ := by
  decide



/-- A folder `{id, name, collapsed, visible}` as created by `createFolder`
in `folders.js`. -/
structure Folder where
  id : String
  name : String
  collapsed : Bool
  visible : Bool
  deriving DecidableEq

/-- A JavaScript value stored in the `featureVisibility` map: the source
only writes booleans, but the map could in principle hold any value, and
every reader tests it with `!== false`. -/
inductive JsV where
  | bool (b : Bool)
  | other
  deriving DecidableEq

/-- The in-memory application state of `state.js` restricted to the fields
the verified operations touch: the features list, the id set of the
`featureLayers` map, the `featureVisibility` map (an insertion-ordered
association list, like a JavaScript `Map`), the folder list, the map view,
and the flat layer-settings record (opaque here). -/
structure AppState where
  features : List Feature
  featureLayers : List (Option String)
  featureVisibility : List (Option String × JsV)
  folders : List Folder
  mapCenter : PointQ
  mapZoom : ℤ
  layerSettings : ℕ
  deriving DecidableEq

/-- JavaScript `Map.get`: the value of the first (unique) entry with the
given key. -/
def mapGet (m : List (Option String × JsV)) (k : Option String) : Option JsV :=
  (m.find? (fun kv => kv.1 = k)).map (fun kv => kv.2)

/-- JavaScript `Map.set`: replace the first entry with the key in place
when one exists, append otherwise. -/
def mapSet : List (Option String × JsV) → Option String → JsV → List (Option String × JsV)
  | [], k, v => [(k, v)]
  | kv :: rest, k, v => if kv.1 = k then (k, v) :: rest else kv :: mapSet rest k v

/-- The visibility read `state.featureVisibility.get(id) !== false` used
throughout `elements.js` and `persistence.js`. -/
def isVisible (m : List (Option String × JsV)) (k : Option String) : Bool :=
  mapGet m k ≠ some (.bool false)

/-- The saved document built by `saveState` in `persistence.js`: a
feature collection whose features carry an injected `_visible` flag, plus
the top-level properties (map view, folders, layer settings; the save
timestamp and version tag carry no state and are omitted). -/
structure SavedDoc where
  features : List Feature
  center : PointQ
  zoom : ℤ
  folders : List Folder
  layerSettings : ℕ
  deriving DecidableEq

/-- Save the application state (`saveState` in `persistence.js`): clone
each feature with `properties._visible = featureVisibility.get(id) !== false`
injected, and record center, zoom, folders and layer settings. -/
def saveState (s : AppState) : SavedDoc :=
  { features := s.features.map (fun f =>
      { f with properties :=
          { f.properties with visibleProp := some (isVisible s.featureVisibility f.id) } })
    center := s.mapCenter
    zoom := s.mapZoom
    folders := s.folders
    layerSettings := s.layerSettings }

/-- Restore one feature (`restoreFeature` in `geojson.js`): push the
feature as given, register its layer, and record its visibility. -/
def restoreFeature (f : Feature) (visible : Bool) (s : AppState) : AppState :=
  { s with
      features := s.features ++ [f]
      featureLayers := s.featureLayers ++ [f.id]
      featureVisibility := mapSet s.featureVisibility f.id (.bool visible) }

/-- Restore one measurement feature (`restoreMeasurementFeature` in
`geojson.js`): identical state mutation, differing only in popup wiring. -/
def restoreMeasurementFeature (f : Feature) (visible : Bool) (s : AppState) : AppState :=
  restoreFeature f visible s

/-- The per-feature restore step of `restoreState`/`handleImport`: read
`_visible !== false` and dispatch on whether the type is a measurement. -/
def restoreStep (s : AppState) (f : Feature) : AppState :=
  let visible := f.properties.visibleProp ≠ some false
  if f.properties.type.startsWith "measurement-" then
    restoreMeasurementFeature f visible s
  else
    restoreFeature f visible s

/-- Restore the application state from a saved document (`restoreState`
in `persistence.js`): the map view is set only when `props.center &&
props.zoom` is truthy (a zoom of `0` is falsy and skips the view), folders
and layer settings are restored verbatim, and each feature is pushed in
order. -/
def restoreState (doc : SavedDoc) (s : AppState) : AppState :=
  let s1 := if doc.zoom ≠ 0 then { s with mapCenter := doc.center, mapZoom := doc.zoom } else s
  let s2 := { s1 with folders := doc.folders, layerSettings := doc.layerSettings }
  doc.features.foldl restoreStep s2

theorem restoreStep_eq (s : AppState) (f : Feature) :
    restoreStep s f = restoreFeature f (f.properties.visibleProp ≠ some false) s := by
  simp [restoreStep, restoreMeasurementFeature]

theorem foldl_restoreStep_features (fs : List Feature) (st : AppState) :
    (fs.foldl restoreStep st).features = st.features ++ fs := by
  induction fs generalizing st with
  | nil => simp
  | cons f rest ih => simp [ih, restoreStep_eq, restoreFeature]

theorem foldl_restoreStep_layers (fs : List Feature) (st : AppState) :
    (fs.foldl restoreStep st).featureLayers = st.featureLayers ++ fs.map (fun f => f.id) := by
  induction fs generalizing st with
  | nil => simp
  | cons f rest ih => simp [ih, restoreStep_eq, restoreFeature]

theorem foldl_restoreStep_folders (fs : List Feature) (st : AppState) :
    (fs.foldl restoreStep st).folders = st.folders := by
  induction fs generalizing st with
  | nil => rfl
  | cons f rest ih => simp [ih, restoreStep_eq, restoreFeature]

theorem foldl_restoreStep_view (fs : List Feature) (st : AppState) :
    (fs.foldl restoreStep st).mapCenter = st.mapCenter ∧
    (fs.foldl restoreStep st).mapZoom = st.mapZoom ∧
    (fs.foldl restoreStep st).layerSettings = st.layerSettings := by
  induction fs generalizing st with
  | nil => exact ⟨rfl, rfl, rfl⟩
  | cons f rest ih => simp [ih, restoreStep_eq, restoreFeature]

theorem foldl_restoreStep_vis (fs : List Feature) (st : AppState) :
    (fs.foldl restoreStep st).featureVisibility =
      fs.foldl (fun m f => mapSet m f.id (.bool (f.properties.visibleProp ≠ some false)))
        st.featureVisibility := by
  induction fs generalizing st with
  | nil => rfl
  | cons f rest ih => simp [ih, restoreStep_eq, restoreFeature]

theorem mapGet_mapSet (m : List (Option String × JsV)) (k k' : Option String) (v : JsV) :
    mapGet (mapSet m k v) k' = if k' = k then some v else mapGet m k' := by
  induction m with
  | nil =>
      by_cases h : k' = k
      · simp [mapSet, mapGet, List.find?, h]
      · have h' : ¬ (k = k') := fun hh => h hh.symm
        simp [mapSet, mapGet, List.find?, h, h']
  | cons kv rest ih =>
      by_cases hk : kv.1 = k
      · by_cases h : k' = k <;> simp_all [mapSet, mapGet, List.find?, eq_comm]
      · by_cases h : k' = k
        · subst h
          simp only [mapSet, if_neg hk, mapGet, List.find?]
          rw [show (decide (kv.1 = k')) = false from by simpa using hk]
          simpa [mapGet] using ih
        · simp only [mapSet, if_neg hk, mapGet, List.find?]
          cases hkv : decide (kv.1 = k') with
          | true => simp [h]
          | false => simpa [mapGet, h] using ih

theorem fold_mapGet (fs : List Feature) (val : Feature → JsV) (V : Option String → JsV)
    (hv : ∀ f ∈ fs, val f = V f.id) (m : List (Option String × JsV)) (k : Option String) :
    mapGet (fs.foldl (fun m f => mapSet m f.id (val f)) m) k =
      if fs.any (fun f => f.id = k) then some (V k) else mapGet m k := by
  induction fs generalizing m with
  | nil => simp
  | cons f rest ih =>
      simp only [List.foldl_cons, List.any_cons]
      rw [ih (fun g hg => hv g (List.mem_cons_of_mem f hg))]
      by_cases hrest : rest.any (fun f => f.id = k)
      · simp [hrest]
      · by_cases hf : f.id = k
        · have hval := hv f (List.mem_cons_self f rest)
          simp [hrest, hf, mapGet_mapSet, hval]
        · have hf' : ¬ (k = f.id) := fun hh => hf hh.symm
          simp [hrest, hf, hf', mapGet_mapSet]

theorem decide_ne_some_false (b : Bool) : (decide (some (JsV.bool b) ≠ some (JsV.bool false))) = b := by
  cases b <;> decide

/-- C2: restoring the document produced by `saveState` (from a fresh
startup state with empty feature, layer, and visibility stores) reproduces
the collection and view as amended: the features come back in the same
order but each carries the injected `_visible` property (set to its
visibility flag); the folder list, layer settings, and every entity's
visibility flag are reproduced exactly; and the map view is restored
exactly when the saved zoom is non-zero (a zoom of `0` is falsy and the
view restore is skipped). -/
theorem saveState_restoreState_roundtrip (s start : AppState)
    (hfeat : start.features = []) (hvis : start.featureVisibility = []) :
    (restoreState (saveState s) start).features =
      s.features.map (fun f =>
        { f with properties :=
            { f.properties with visibleProp := some (isVisible s.featureVisibility f.id) } }) ∧
    (restoreState (saveState s) start).folders = s.folders ∧
    (restoreState (saveState s) start).layerSettings = s.layerSettings ∧
    (s.mapZoom ≠ 0 →
      (restoreState (saveState s) start).mapCenter = s.mapCenter ∧
      (restoreState (saveState s) start).mapZoom = s.mapZoom) ∧
    ∀ f ∈ s.features,
      isVisible (restoreState (saveState s) start).featureVisibility f.id =
        isVisible s.featureVisibility f.id := by
  unfold restoreState
  refine ⟨?_, ?_, ?_, ?_, ?_⟩
  · rw [foldl_restoreStep_features]
    simp only [saveState]
    split <;> simp [hfeat]
  · rw [foldl_restoreStep_folders]
    split <;> rfl
  · rw [(foldl_restoreStep_view _ _).2.2]
    split <;> rfl
  · intro hz
    refine ⟨?_, ?_⟩
    · rw [(foldl_restoreStep_view _ _).1]
      simp only [saveState]
      rw [if_pos hz]
    · rw [(foldl_restoreStep_view _ _).2.1]
      simp only [saveState]
      rw [if_pos hz]
  · intro f hf
    rw [foldl_restoreStep_vis]
    have hvis2 :
        (if (saveState s).zoom ≠ 0 then
            { start with mapCenter := (saveState s).center, mapZoom := (saveState s).zoom }
          else start).featureVisibility = ([] : List (Option String × JsV)) := by
      split <;> simp [hvis]
    rw [show ({ (if (saveState s).zoom ≠ 0 then
            { start with mapCenter := (saveState s).center, mapZoom := (saveState s).zoom }
          else start) with
          folders := (saveState s).folders,
          layerSettings := (saveState s).layerSettings } : AppState).featureVisibility =
        ([] : List (Option String × JsV)) from hvis2]
    have hv : ∀ g ∈ (saveState s).features,
        (fun g : Feature => JsV.bool (decide (g.properties.visibleProp ≠ some false))) g =
          (fun k => JsV.bool (isVisible s.featureVisibility k)) g.id := by
      intro g hg
      simp only [saveState, List.mem_map] at hg
      obtain ⟨g0, hg0, rfl⟩ := hg
      simp [decide_ne_some_false]
    have hmem : ((saveState s).features.any (fun g => g.id = f.id)) = true := by
      simp only [saveState, List.any_map, List.any_eq_true]
      exact ⟨f, hf, by simp⟩
    simp only [isVisible]
    rw [fold_mapGet ((saveState s).features)
      (fun g : Feature => JsV.bool (decide (g.properties.visibleProp ≠ some false)))
      (fun k => JsV.bool (isVisible s.featureVisibility k)) hv ([]) f.id, if_pos hmem]
    simp [decide_ne_some_false, isVisible]

/-- Witness for the amended C2 theorem at a concrete one-feature state. -/
theorem saveState_restoreState_roundtrip_witness :
    (restoreState
        (saveState ⟨[⟨some "a", .prim (.point ⟨5, 45⟩), { type := "marker" }⟩],
          [some "a"], [], [], ⟨46, 2⟩, 6, 0⟩)
        ⟨[], [], [], [], ⟨46, 2⟩, 6, 0⟩).folders = [] ∧
    ∀ f ∈ ([⟨some "a", .prim (.point ⟨5, 45⟩), { type := "marker" }⟩] : List Feature),
      isVisible
        (restoreState
          (saveState ⟨[⟨some "a", .prim (.point ⟨5, 45⟩), { type := "marker" }⟩],
            [some "a"], [], [], ⟨46, 2⟩, 6, 0⟩)
          ⟨[], [], [], [], ⟨46, 2⟩, 6, 0⟩).featureVisibility f.id =
      isVisible ([] : List (Option String × JsV)) f.id := by
  have h := saveState_restoreState_roundtrip
    ⟨[⟨some "a", .prim (.point ⟨5, 45⟩), { type := "marker" }⟩],
      [some "a"], [], [], ⟨46, 2⟩, 6, 0⟩
    ⟨[], [], [], [], ⟨46, 2⟩, 6, 0⟩ rfl rfl
  exact ⟨h.2.1, h.2.2.2.2⟩

/-- C2 counterexample: at a concrete collection whose single feature lacks
the `_visible` property, the restored features list differs from the
original (restore keeps the injected `_visible: true`); and at a concrete
state saved with zoom `0`, the map zoom is not reproduced.  So
`deserialize(serialize(c, v))` does not reproduce `c` and `v` exactly. -/
theorem saveState_restoreState_not_exact :
    (restoreState
        (saveState ⟨[⟨some "a", .prim (.point ⟨5, 45⟩), { type := "marker" }⟩],
          [some "a"], [], [], ⟨46, 2⟩, 6, 0⟩)
        ⟨[], [], [], [], ⟨46, 2⟩, 6, 0⟩).features ≠
      [⟨some "a", .prim (.point ⟨5, 45⟩), { type := "marker" }⟩] ∧
    (restoreState
        (saveState ⟨[], [], [], [], ⟨46, 2⟩, 0, 0⟩)
        ⟨[], [], [], [], ⟨40, 1⟩, 6, 0⟩).mapZoom ≠
      (⟨[], [], [], [], ⟨46, 2⟩, 0, 0⟩ : AppState).mapZoom := by
  decide


/-- A parsed import file for `handleImport` in `persistence.js`: either the
`JSON.parse` call threw, or it produced an object whose relevant keys may
each be absent. -/
inductive ImportDoc where
  | parseFailure
  | doc (features : Option (List Feature)) (center : Option PointQ) (zoom : Option ℤ)
      (folders : Option (List Folder))

/-- Import a file (`handleImport` in `persistence.js`), returning the new
state and whether the import succeeded.  On a parse failure the catch
block reports the error with no state touched; otherwise the function
first clears features, layers, visibility and folders, applies the view
(`props.center && props.zoom` truthiness, so zoom `0` is skipped) and the
folders, and only then iterates `data.features` — which throws into the
catch block when the key is absent, after the clearing already happened. -/
def handleImport (s : AppState) (d : ImportDoc) : AppState × Bool :=
  match d with
  | .parseFailure => (s, false)
  | .doc feats ctr zm flds =>
      let s1 : AppState :=
        { s with features := [], featureLayers := [], featureVisibility := [], folders := [] }
      let s2 := match ctr, zm with
        | some c, some z => if z ≠ 0 then { s1 with mapCenter := c, mapZoom := z } else s1
        | _, _ => s1
      let s3 := match flds with
        | some fl => { s2 with folders := fl }
        | none => s2
      match feats with
      | none => (s3, false)
      | some fs => (fs.foldl restoreStep s3, true)

/-- C3 counterexample: importing the concrete parsed document `{}` (valid
JSON with no `features` array) over a concrete non-empty prior state
reports a failure, yet the prior in-memory state is not left as it was —
the features, layers, visibility and folders have already been cleared. -/
theorem handleImport_clears_then_fails :
    (handleImport
        ⟨[⟨some "a", .prim (.point ⟨5, 45⟩), { type := "marker" }⟩],
          [some "a"], [(some "a", .bool true)], [⟨"f1", "Dossier", false, true⟩], ⟨46, 2⟩, 6, 0⟩
        (.doc none none none none)).2 = false ∧
    (handleImport
        ⟨[⟨some "a", .prim (.point ⟨5, 45⟩), { type := "marker" }⟩],
          [some "a"], [(some "a", .bool true)], [⟨"f1", "Dossier", false, true⟩], ⟨46, 2⟩, 6, 0⟩
        (.doc none none none none)).1 ≠
      ⟨[⟨some "a", .prim (.point ⟨5, 45⟩), { type := "marker" }⟩],
        [some "a"], [(some "a", .bool true)], [⟨"f1", "Dossier", false, true⟩], ⟨46, 2⟩, 6, 0⟩ := by
  decide

/-- C3: as amended — an import whose `JSON.parse` fails reports the error
and leaves the prior in-memory state exactly as it was; but a document
that parses and lacks a `features` array is reported as an error only
after the in-memory collection has been cleared: the prior features,
layers, visibility entries are gone and the folders replaced. -/
theorem handleImport_error_behavior (s : AppState) :
    handleImport s .parseFailure = (s, false) ∧
    ∀ ctr zm flds,
      (handleImport s (.doc none ctr zm flds)).2 = false ∧
      (handleImport s (.doc none ctr zm flds)).1.features = [] ∧
      (handleImport s (.doc none ctr zm flds)).1.featureLayers = [] ∧
      (handleImport s (.doc none ctr zm flds)).1.featureVisibility = [] := by
  refine ⟨rfl, ?_⟩
  intro ctr zm flds
  cases ctr <;> cases zm <;> cases flds <;> simp [handleImport] <;> split_ifs <;> simp

/-- Toggle all element visibility (`toggleAllElementsVisibility` in
`elements.js`): with no argument, the target is the negation of "some
feature is visible"; every feature's visibility entry and every folder's
`visible` flag are set to the target.  The per-layer map add/remove is a
rendering side effect not modelled. -/
def toggleAllElementsVisibility (s : AppState) (forceVisible : Option Bool) : AppState :=
  let targetVisibility :=
    forceVisible.getD (! s.features.any (fun f => isVisible s.featureVisibility f.id))
  { s with
      featureVisibility :=
        s.features.foldl (fun m f => mapSet m f.id (.bool targetVisibility)) s.featureVisibility
      folders := s.folders.map (fun fl => { fl with visible := targetVisibility }) }

/-- C4 counterexample: with two concrete entities of which exactly one is
hidden, `toggleAll()` does not flip all entities to visible — it hides
them all (the code negates "some entity is visible", not "no entity is
hidden"). -/
theorem toggleAll_counterexample :
    (¬ isVisible [(some "b", .bool false)] (some "b")) ∧
    isVisible
      (toggleAllElementsVisibility
        ⟨[⟨some "a", .prim (.point ⟨5, 45⟩), { type := "marker" }⟩,
          ⟨some "b", .prim (.point ⟨6, 44⟩), { type := "marker" }⟩],
          [some "a", some "b"], [(some "b", .bool false)], [], ⟨46, 2⟩, 6, 0⟩
        none).featureVisibility (some "a") = false := by
  decide

/-- C4: as amended — calling `toggleAll` with no argument sets every
entity's visibility to the negation of "at least one entity is currently
visible": all entities become visible exactly when every entity was
hidden, and all are hidden whenever at least one was visible. -/
theorem toggleAll_majority_opposite (s : AppState) (f : Feature) (hf : f ∈ s.features) :
    isVisible (toggleAllElementsVisibility s none).featureVisibility f.id =
      ! s.features.any (fun g => isVisible s.featureVisibility g.id) := by
  have key :
      mapGet (toggleAllElementsVisibility s none).featureVisibility f.id =
        some (JsV.bool (! s.features.any (fun g => isVisible s.featureVisibility g.id))) := by
    simp only [toggleAllElementsVisibility, Option.getD]
    rw [fold_mapGet s.features
      (fun _ : Feature => JsV.bool (! s.features.any (fun g => isVisible s.featureVisibility g.id)))
      (fun _ => JsV.bool (! s.features.any (fun g => isVisible s.featureVisibility g.id)))
      (fun _ _ => rfl) s.featureVisibility f.id,
      if_pos (by exact List.any_eq_true.mpr ⟨f, hf, by simp⟩)]
  simp only [isVisible, key, decide_ne_some_false]

/-- Witness for the amended C4 theorem: in a concrete state with one
visible and one hidden entity, the first entity ends hidden. -/
theorem toggleAll_majority_opposite_witness :
    isVisible
      (toggleAllElementsVisibility
        ⟨[⟨some "a", .prim (.point ⟨5, 45⟩), { type := "marker" }⟩,
          ⟨some "b", .prim (.point ⟨6, 44⟩), { type := "marker" }⟩],
          [some "a", some "b"], [(some "b", .bool false)], [], ⟨46, 2⟩, 6, 0⟩
        none).featureVisibility (some "a") =
      ! ([⟨some "a", .prim (.point ⟨5, 45⟩), { type := "marker" }⟩,
          ⟨some "b", .prim (.point ⟨6, 44⟩), { type := "marker" }⟩] : List Feature).any
          (fun g => isVisible [(some "b", JsV.bool false)] g.id) :=
  toggleAll_majority_opposite
    ⟨[⟨some "a", .prim (.point ⟨5, 45⟩), { type := "marker" }⟩,
      ⟨some "b", .prim (.point ⟨6, 44⟩), { type := "marker" }⟩],
      [some "a", some "b"], [(some "b", .bool false)], [], ⟨46, 2⟩, 6, 0⟩
    ⟨some "a", .prim (.point ⟨5, 45⟩), { type := "marker" }⟩
    (by simp)


/-- Toggle one element's visibility (`toggleElementVisibility` in
`elements.js`): read `featureVisibility.get(id) !== false`, store the
negation.  The per-layer map add/remove is a rendering side effect not
modelled. -/
def toggleElementVisibility (s : AppState) (id : Option String) : AppState :=
  let currentVisibility := isVisible s.featureVisibility id
  let newVisibility := ! currentVisibility
  { s with featureVisibility := mapSet s.featureVisibility id (.bool newVisibility) }

/-- The per-element data gathered by `updateElementList` in `elements.js`:
each feature's id with its rendered visibility flag
`featureVisibility.get(id) !== false`. -/
def elementListEntries (s : AppState) : List (Option String × Bool) :=
  s.features.map (fun f => (f.id, isVisible s.featureVisibility f.id))

theorem mapSet_mapSet (m : List (Option String × JsV)) (k : Option String) (v v' : JsV) :
    mapSet (mapSet m k v) k v' = mapSet m k v' := by
  induction m with
  | nil => simp [mapSet]
  | cons kv rest ih =>
      by_cases hk : kv.1 = k
      · simp [mapSet, hk]
      · simp [mapSet, hk, ih]

theorem isVisible_mapSet_true_of_none (m : List (Option String × JsV)) (k : Option String)
    (h : mapGet m k = none) (k' : Option String) :
    isVisible (mapSet m k (.bool true)) k' = isVisible m k' := by
  by_cases hk : k' = k
  · subst hk
    simp [isVisible, mapGet_mapSet, h]
  · simp [isVisible, mapGet_mapSet, hk]

/-- C10: every operation that reads an entity's visibility treats a
missing entry — and any entry whose value is not the boolean `false` — as
visible: the visibility read is `true` for a missing entry and for any
non-`false` value, and with a missing entry the toggle operation, the
saved document, and the rendered element list are identical to those of
the state whose entry is explicitly `true`; restoring a feature without a
`_visible` property records it as visible. -/
theorem visibility_missing_entry_defaults_visible (s : AppState) (k : Option String)
    (h : mapGet s.featureVisibility k = none) :
    isVisible s.featureVisibility k = true ∧
    (∀ v : JsV, v ≠ .bool false →
      isVisible (mapSet s.featureVisibility k v) k = true) ∧
    toggleElementVisibility s k =
      toggleElementVisibility
        { s with featureVisibility := mapSet s.featureVisibility k (.bool true) } k ∧
    saveState s =
      saveState { s with featureVisibility := mapSet s.featureVisibility k (.bool true) } ∧
    elementListEntries s =
      elementListEntries { s with featureVisibility := mapSet s.featureVisibility k (.bool true) } ∧
    ∀ f : Feature, f.properties.visibleProp = none →
      (restoreStep s f).featureVisibility = mapSet s.featureVisibility f.id (.bool true) := by
  refine ⟨?_, ?_, ?_, ?_, ?_, ?_⟩
  · simp [isVisible, h]
  · intro v hv
    simp [isVisible, mapGet_mapSet, hv]
  · simp only [toggleElementVisibility]
    have h1 : isVisible s.featureVisibility k = true := by simp [isVisible, h]
    have h2 : isVisible (mapSet s.featureVisibility k (.bool true)) k = true := by
      simp [isVisible, mapGet_mapSet]
    rw [h1, h2, mapSet_mapSet]
  · simp only [saveState]
    congr 1
    refine List.map_congr_left ?_
    intro f _
    rw [isVisible_mapSet_true_of_none s.featureVisibility k h f.id]
  · simp only [elementListEntries]
    refine List.map_congr_left ?_
    intro f _
    rw [isVisible_mapSet_true_of_none s.featureVisibility k h f.id]
  · intro f hfv
    rw [restoreStep_eq]
    simp [restoreFeature, hfv]

/-- Witness for the C10 theorem at a concrete state whose visibility map
has no entry for the queried id. -/
theorem visibility_missing_entry_defaults_visible_witness :
    isVisible
      ([(some "b", JsV.bool false)] : List (Option String × JsV)) (some "a") = true ∧
    toggleElementVisibility
      ⟨[⟨some "a", .prim (.point ⟨5, 45⟩), { type := "marker" }⟩],
        [some "a"], [(some "b", .bool false)], [], ⟨46, 2⟩, 6, 0⟩ (some "a") =
    toggleElementVisibility
      ⟨[⟨some "a", .prim (.point ⟨5, 45⟩), { type := "marker" }⟩],
        [some "a"], mapSet [(some "b", .bool false)] (some "a") (.bool true),
        [], ⟨46, 2⟩, 6, 0⟩ (some "a") := by
  have h := visibility_missing_entry_defaults_visible
    ⟨[⟨some "a", .prim (.point ⟨5, 45⟩), { type := "marker" }⟩],
      [some "a"], [(some "b", .bool false)], [], ⟨46, 2⟩, 6, 0⟩ (some "a") (by decide)
  exact ⟨h.1, h.2.2.1⟩


/-- CONFIG.colors for the drawing tools (`config.js`): the value of
`CONFIG.colors['drawing-' + type] || CONFIG.colors.default`. -/
def drawingColor (ty : String) : String :=
  match ty with
  | "marker" => "#e74c3c"
  | "circle" => "#9b59b6"
  | "line" => "#3498db"
  | "bearing" => "#f39c12"
  | "polygon" => "#2ecc71"
  | _ => defaultColor

/-- The per-kind default titles of `createElement` in `elements.js`:
`{...}[type] || type`. -/
def defaultTitle (ty : String) : String :=
  match ty with
  | "marker" => "Marqueur"
  | "circle" => "Cercle"
  | "line" => "Ligne"
  | "bearing" => "Ligne directionnelle"
  | "polygon" => "Polygone"
  | _ => ty

/-- Build the feature of a new element (`createElement` in `elements.js`,
lines 33-111): default the color and title, then construct the per-kind
GeoJSON feature.  `len` is the external `turf.length` and `mdist` the
external `state.map.distance`, both injected since their numeric output is
computed by external collaborators.  The function performs no point-count
validation: a `.error` is an exception thrown by turf (or a `TypeError`),
never a reported validation failure. -/
def createElementFeature (len : List Pos → ℚ) (mdist : PointQ → PointQ → ℚ)
    (id : String) (ty : String) (data : ElementData) : Except String Feature := do
  let color := jsOrStr data.color (drawingColor ty)
  let title := jsOrStr data.title (defaultTitle ty)
  let properties : Props :=
    { type := ty
      title := some title
      description := some (jsOrStr data.description "")
      color := some color
      folderId := jsOrNull data.folderId }
  let feature : Feature ←
    match ty with
    | "marker" => turfPoint data.lng data.lat properties
    | "circle" =>
        match data.center with
        | none => .error "TypeError: Cannot read properties of undefined"
        | some c =>
            turfPoint (some c.lng) (some c.lat) ({ properties with radius := data.radius })
    | "line" =>
        match data.points with
        | some ps => do
            let lineCoords := ps.map (fun p => (⟨p.lng, p.lat⟩ : Pos))
            let _line ← turfLineStringGeom lineCoords
            turfLineString lineCoords ({ properties with distance := some (len lineCoords) })
        | none =>
            match data.start, data.endPt with
            | some s, some en =>
                let dist := match data.distance with
                  | some dv => if dv = 0 then mdist s en else dv
                  | none => mdist s en
                turfLineString [⟨s.lng, s.lat⟩, ⟨en.lng, en.lat⟩]
                  ({ properties with distance := some dist })
            | _, _ => .error "TypeError: Cannot read properties of undefined"
    | "bearing" =>
        match data.start, data.endPt with
        | some s, some en =>
            let dist := match data.distance with
              | some dv => if dv = 0 then mdist s en else dv
              | none => mdist s en
            turfLineString [⟨s.lng, s.lat⟩, ⟨en.lng, en.lat⟩]
              ({ properties with distance := some dist, bearing := data.bearing })
        | _, _ => .error "TypeError: Cannot read properties of undefined"
    | "polygon" =>
        match data.points with
        | some ps =>
            let polyCoords := ps.map (fun p => (⟨p.lng, p.lat⟩ : Pos))
            turfPolygon [polyCoords ++ polyCoords.take 1] properties
        | none => .error "TypeError: Cannot read properties of undefined"
    | _ => .error "TypeError: feature is null"
  .ok { feature with id := some id }

/-- Register a freshly created feature in the stores (`createElement`
lines 112-120). -/
def pushFeature (s : AppState) (id : String) (f : Feature) : AppState :=
  { s with
      features := s.features ++ [f]
      featureLayers := s.featureLayers ++ [some id]
      featureVisibility := mapSet s.featureVisibility (some id) (.bool true) }

/-- Create a new element (`createElement` in `elements.js`): build the
feature and, on success, store it; a thrown turf error propagates to the
caller with no state change. -/
def createElement (len : List Pos → ℚ) (mdist : PointQ → PointQ → ℚ)
    (s : AppState) (id : String) (ty : String) (data : ElementData) :
    Except String AppState := do
  let f ← createElementFeature len mdist id ty data
  .ok (pushFeature s id f)


/-- The interactive UI state: the active drawing tool and its collected
points (`state.activeTool`, `state.drawing.points`), the active
measurement and its points and staged result (`state.measurement`), and
the collection stores. -/
structure UIState where
  activeTool : Option String
  drawingPoints : List PointQ
  measurementActive : Option String
  measurementPoints : List PointQ
  measurementResult : Option (String × List PointQ)
  app : AppState
  deriving DecidableEq

/-- The measurement kinds the `switch` of `completeMeasurement` computes a
result for. -/
def measurementKinds : List String :=
  ["distance", "bearing", "area", "center", "centroid", "bbox", "along"]

/-- Complete the current measurement (`completeMeasurement` in
`measurements.js`): return unless a measurement is active with at least 2
points (at least 3 for the polygon family `area`/`center`/`centroid`/
`bbox`), otherwise compute the result and stage it.  The result's numeric
payload is produced by the external geometry library; the staged result is
embedded as the measurement kind paired with the points it was computed
from. -/
def completeMeasurement (u : UIState) : UIState :=
  match u.measurementActive with
  | none => u
  | some ty =>
      if u.measurementPoints.length < 2 then u
      else if ["area", "center", "centroid", "bbox"].contains ty ∧
          u.measurementPoints.length < 3 then u
      else
        { u with measurementResult :=
            if measurementKinds.contains ty then some (ty, u.measurementPoints) else none }

/-- Handle a click during a measurement (`handleMeasurementClick` in
`measurements.js`): push the point; `distance`/`bearing` complete as soon
as the second point arrives, the other kinds only update previews and
instructions. -/
def handleMeasurementClick (u : UIState) (p : PointQ) : UIState :=
  let u1 := { u with measurementPoints := u.measurementPoints ++ [p] }
  match u1.measurementActive with
  | some "distance" | some "bearing" =>
      if u1.measurementPoints.length = 2 then completeMeasurement u1 else u1
  | _ => u1

/-- Finish a line drawing (`finishLine` in `drawing.js`): create the
element only when at least 2 points were collected, then always reset the
drawing state and deactivate the tool. -/
def finishLine (len : List Pos → ℚ) (mdist : PointQ → PointQ → ℚ)
    (id : String) (u : UIState) : UIState × Option String :=
  if 2 ≤ u.drawingPoints.length then
    match createElement len mdist u.app id "line"
        { points := some u.drawingPoints, title := some "Ligne" } with
    | .error e => (u, some e)
    | .ok app' => ({ u with app := app', drawingPoints := [], activeTool := none }, none)
  else
    ({ u with drawingPoints := [], activeTool := none }, none)

/-- Finish a polygon drawing (`finishPolygon` in `drawing.js`): create the
element unconditionally — there is no minimum-point check — then reset the
drawing state and deactivate the tool.  A thrown error from element
creation leaves the collected points in place and propagates. -/
def finishPolygon (len : List Pos → ℚ) (mdist : PointQ → PointQ → ℚ)
    (id : String) (u : UIState) : UIState × Option String :=
  match createElement len mdist u.app id "polygon"
      { points := some u.drawingPoints, title := some "Polygone" } with
  | .error e => (u, some e)
  | .ok app' => ({ u with app := app', drawingPoints := [], activeTool := none }, none)

/-- The measurement kinds of `POLYGON_MEASUREMENTS` in `events.js` — note
`center` is absent. -/
def POLYGON_MEASUREMENTS : List String := ["area", "centroid", "bbox"]

/-- Handle a map double-click (`handleMapDoubleClick` in `events.js`):
for a polygon-family measurement with at least 3 collected points, or an
`along` measurement with at least 2, pop the duplicate point delivered by
the preceding click and complete; for line (polygon) drawing with at
least 2 (3) points, pop the duplicate and finish.  The second component is
a thrown exception reaching the caller, `none` when no throw occurred. -/
def handleMapDoubleClick (len : List Pos → ℚ) (mdist : PointQ → PointQ → ℚ)
    (id : String) (u : UIState) : UIState × Option String :=
  if (Option.any (fun ty => POLYGON_MEASUREMENTS.contains ty) u.measurementActive) ∧
      3 ≤ u.measurementPoints.length then
    (completeMeasurement { u with measurementPoints := u.measurementPoints.dropLast }, none)
  else if u.measurementActive = some "along" ∧ 2 ≤ u.measurementPoints.length then
    (completeMeasurement { u with measurementPoints := u.measurementPoints.dropLast }, none)
  else if u.activeTool = some "line" ∧ 2 ≤ u.drawingPoints.length then
    finishLine len mdist id { u with drawingPoints := u.drawingPoints.dropLast }
  else if u.activeTool = some "polygon" ∧ 3 ≤ u.drawingPoints.length then
    finishPolygon len mdist id { u with drawingPoints := u.drawingPoints.dropLast }
  else
    (u, none)


/-- An empty collection store with the default France view, used by the
concrete evaluations below. -/
def app0 : AppState := ⟨[], [], [], [], ⟨46, 2⟩, 6, 0⟩

/-- C5: evaluation at the failing input — a `center` measurement with 3
collected points is left completely unchanged by a double-click (no
completion, no popped point), because `POLYGON_MEASUREMENTS` in
`events.js` omits `center`; yet `completeMeasurement` itself does compute
a `center` result for the same points, and the other kinds behave as the
claim says (`distance` completes at the second click, `area` completes on
double-click, `along` completes on double-click). -/
theorem center_never_completes_on_dblclick :
    handleMapDoubleClick (fun _ => 0) (fun _ _ => 0) "id"
        ⟨none, [], some "center", [⟨0, 0⟩, ⟨0, 1⟩, ⟨1, 1⟩], none, app0⟩ =
      (⟨none, [], some "center", [⟨0, 0⟩, ⟨0, 1⟩, ⟨1, 1⟩], none, app0⟩, none) ∧
    (completeMeasurement
        ⟨none, [], some "center", [⟨0, 0⟩, ⟨0, 1⟩, ⟨1, 1⟩], none, app0⟩).measurementResult =
      some ("center", [⟨0, 0⟩, ⟨0, 1⟩, ⟨1, 1⟩]) ∧
    (handleMeasurementClick
        ⟨none, [], some "distance", [⟨0, 0⟩], none, app0⟩ ⟨0, 1⟩).measurementResult =
      some ("distance", [⟨0, 0⟩, ⟨0, 1⟩]) ∧
    ((handleMapDoubleClick (fun _ => 0) (fun _ _ => 0) "id"
        ⟨none, [], some "area", [⟨0, 0⟩, ⟨0, 1⟩, ⟨1, 1⟩, ⟨1, 1⟩], none, app0⟩).1).measurementResult =
      some ("area", [⟨0, 0⟩, ⟨0, 1⟩, ⟨1, 1⟩]) ∧
    ((handleMapDoubleClick (fun _ => 0) (fun _ _ => 0) "id"
        ⟨none, [], some "along", [⟨0, 0⟩, ⟨0, 1⟩, ⟨0, 1⟩], none, app0⟩).1).measurementResult =
      some ("along", [⟨0, 0⟩, ⟨0, 1⟩]) := by
  decide

/-- C6 counterexample: `createElement('polygon', {points: [p1, p2]})` does
not report a validation error — `createElement` has no point-count
validation at all, and the failure is the uncontrolled exception thrown by
`turf.polygon` on the 3-position ring. -/
theorem createElement_two_point_polygon_throws :
    createElement (fun _ => 0) (fun _ _ => 0) app0 "id" "polygon"
        { points := some [⟨0, 0⟩, ⟨0, 1⟩] } =
      .error "Each LinearRing of a Polygon must have 4 or more Positions." := by
  decide

/-- C6: as amended — `createElement` performs no point-count validation:
a polygon with fewer than 3 points makes `turf.polygon` throw its ring
error (the auto-closed ring has fewer than 4 positions), and a
points-form line with fewer than 2 points makes `turf.lineString` throw;
with 3 (respectively 2) or more points creation succeeds. -/
theorem createElement_point_minimums (len : List Pos → ℚ) (mdist : PointQ → PointQ → ℚ)
    (s : AppState) (id : String) (data : ElementData) (ps : List PointQ)
    (hdata : data.points = some ps) :
    (ps.length < 3 →
      createElement len mdist s id "polygon" data =
        .error "Each LinearRing of a Polygon must have 4 or more Positions.") ∧
    (3 ≤ ps.length → ∃ s', createElement len mdist s id "polygon" data = .ok s') ∧
    (ps.length < 2 →
      createElement len mdist s id "line" data =
        .error "coordinates must be an array of two or more positions") ∧
    (2 ≤ ps.length → ∃ s', createElement len mdist s id "line" data = .ok s') := by
  refine ⟨?_, ?_, ?_, ?_⟩
  · intro hlt
    match ps, hlt with
    | [], _ =>
        simp [createElement, createElementFeature, hdata, turfPolygon, turfPolygonGeom,
          Bind.bind, Except.bind]
    | [a], _ =>
        simp [createElement, createElementFeature, hdata, turfPolygon, turfPolygonGeom,
          Bind.bind, Except.bind]
    | [a, b], _ =>
        simp [createElement, createElementFeature, hdata, turfPolygon, turfPolygonGeom,
          Bind.bind, Except.bind]
  · intro hge
    obtain ⟨a, rest, rfl⟩ : ∃ a rest, ps = a :: rest := by
      cases ps with
      | nil => simp at hge
      | cons a rest => exact ⟨a, rest, rfl⟩
    have h4 : ¬ (rest.length + 1 + 1 < 4) := by
      simp only [List.length_cons] at hge; omega
    simp [createElement, createElementFeature, hdata, turfPolygon, turfPolygonGeom,
      getLast?_cons_append_singleton, h4, Bind.bind, Except.bind]
  · intro hlt
    match ps, hlt with
    | [], _ =>
        simp [createElement, createElementFeature, hdata, turfLineString, turfLineStringGeom,
          Bind.bind, Except.bind]
    | [a], _ =>
        simp [createElement, createElementFeature, hdata, turfLineString, turfLineStringGeom,
          Bind.bind, Except.bind]
  · intro hge
    have h2 : ¬ (ps.length < 2) := by omega
    simp [createElement, createElementFeature, hdata, turfLineString, turfLineStringGeom,
      h2, Bind.bind, Except.bind]

/-- Witness for the amended C6 theorem: a 3-point polygon succeeds and a
2-point polygon throws the turf ring error. -/
theorem createElement_point_minimums_witness :
    (∃ s', createElement (fun _ => 0) (fun _ _ => 0) app0 "id" "polygon"
        { points := some [⟨0, 0⟩, ⟨0, 1⟩, ⟨1, 1⟩] } = .ok s') ∧
    createElement (fun _ => 0) (fun _ _ => 0) app0 "id" "polygon"
        { points := some [⟨0, 0⟩, ⟨0, 1⟩] } =
      .error "Each LinearRing of a Polygon must have 4 or more Positions." :=
  ⟨(createElement_point_minimums (fun _ => 0) (fun _ _ => 0) app0 "id"
      { points := some [⟨0, 0⟩, ⟨0, 1⟩, ⟨1, 1⟩] } [⟨0, 0⟩, ⟨0, 1⟩, ⟨1, 1⟩] rfl).2.1
      (by decide),
    (createElement_point_minimums (fun _ => 0) (fun _ _ => 0) app0 "id"
      { points := some [⟨0, 0⟩, ⟨0, 1⟩] } [⟨0, 0⟩, ⟨0, 1⟩] rfl).1 (by decide)⟩


/-- C7 counterexample: a polygon drawing with exactly 3 collected points
(2 distinct clicks plus the duplicate from the click before the
double-click) gets below the minimum after deduplication, and the
finalization is not a no-op — `finishPolygon` calls `createElement`
unconditionally and the `turf.polygon` ring error reaches the caller of
the double-click handler. -/
theorem dblclick_three_point_polygon_throws :
    (handleMapDoubleClick (fun _ => 0) (fun _ _ => 0) "id"
        ⟨some "polygon", [⟨0, 0⟩, ⟨0, 1⟩, ⟨1, 1⟩], none, [], none, app0⟩).2 =
      some "Each LinearRing of a Polygon must have 4 or more Positions." := by
  decide

/-- C7: as amended — a double-click finalization whose deduplicated point
collection is below the minimum behaves differently per tool: for a
polygon (3 collected points, 2 after the duplicate is popped) the
unguarded `finishPolygon` lets the turf ring error reach the caller while
the popped collection stays in place and the tool stays active (the
collection is left open by the exception, not by design); for a line
(2 collected points, 1 after the pop) `finishLine` skips creation but
still resets the collection and deactivates the tool — a silent discard,
not a kept-open collection — and no error reaches the caller. -/
theorem dblclick_below_minimum (len : List Pos → ℚ) (mdist : PointQ → PointQ → ℚ)
    (id : String) (u v : UIState)
    (hpu : u.activeTool = some "polygon") (hmu : u.measurementActive = none)
    (h3 : u.drawingPoints.length = 3)
    (hlv : v.activeTool = some "line") (hmv : v.measurementActive = none)
    (h2 : v.drawingPoints.length = 2) :
    ((handleMapDoubleClick len mdist id u).2 =
        some "Each LinearRing of a Polygon must have 4 or more Positions." ∧
      (handleMapDoubleClick len mdist id u).1 =
        { u with drawingPoints := u.drawingPoints.dropLast }) ∧
    handleMapDoubleClick len mdist id v =
      ({ v with drawingPoints := [], activeTool := none }, none) := by
  constructor
  · obtain ⟨a, b, c, hpts⟩ : ∃ a b c, u.drawingPoints = [a, b, c] := by
      match hu : u.drawingPoints, h3 with
      | [a, b, c], _ => exact ⟨a, b, c, rfl⟩
    constructor <;>
      simp [handleMapDoubleClick, hpu, hmu, hpts, finishPolygon, createElement,
        createElementFeature, turfPolygon, turfPolygonGeom, Bind.bind, Except.bind]
  · obtain ⟨a, b, hpts⟩ : ∃ a b, v.drawingPoints = [a, b] := by
      match hv : v.drawingPoints, h2 with
      | [a, b], _ => exact ⟨a, b, rfl⟩
    simp [handleMapDoubleClick, hlv, hmv, hpts, finishLine, Bind.bind, Except.bind]

/-- Witness for the amended C7 theorem at concrete three-point polygon and
two-point line states. -/
theorem dblclick_below_minimum_witness :
    (handleMapDoubleClick (fun _ => 0) (fun _ _ => 0) "id"
        ⟨some "line", [⟨0, 0⟩, ⟨0, 1⟩], none, [], none, app0⟩) =
      ({ activeTool := none, drawingPoints := [], measurementActive := none,
         measurementPoints := [], measurementResult := none, app := app0 }, none) :=
  (dblclick_below_minimum (fun _ => 0) (fun _ _ => 0) "id"
    ⟨some "polygon", [⟨0, 0⟩, ⟨0, 1⟩, ⟨1, 1⟩], none, [], none, app0⟩
    ⟨some "line", [⟨0, 0⟩, ⟨0, 1⟩], none, [], none, app0⟩
    rfl rfl rfl rfl rfl rfl).2


/-- JavaScript `%` (remainder, truncating toward zero) on rationals. -/
def jsMod (a b : ℚ) : ℚ :=
  a - b * (if 0 ≤ a / b then ((⌊a / b⌋ : ℤ) : ℚ) else ((⌈a / b⌉ : ℤ) : ℚ))

/-- Cardinal direction of a bearing (`getCardinalDirection` in
`utils.js`): `cardinals[Math.round(bearing / 45) % 8]`. -/
def getCardinalDirection (bearing : ℚ) : String :=
  let cardinals := ["N", "NE", "E", "SE", "S", "SO", "O", "NO"]
  cardinals.getD (((round (bearing / 45) : ℤ) % 8).toNat) ""

/-- The along-measurement result (`calculateAlong` in `measurements.js`):
`lengthKm` is the external `turf.length` of the drawn line and
`halfwayPoint` the external `turf.along` at half that length; the data
records `lengthM = lengthKm * 1000`, `alongDistance = lengthM / 2` and
`alongPercent = 50`. -/
def calculateAlong (points : List PointQ) (lengthKm : ℚ) (halfwayPoint : PointQ) :
    ElementData :=
  let lengthM := lengthKm * 1000
  { points := some points
    lengthM := some lengthM
    lengthKm := some lengthKm
    alongPoint := some halfwayPoint
    alongDistance := some (lengthM / 2)
    alongPercent := some 50 }

/-- The CSS classes present in the popup fields generated for an along
measurement (`createPopupContent` → `createAlongFields` in `elements.js`):
the points textarea, the computed-value spans, and the percent and
distance inputs.  No element carries the class `along-point-display`. -/
def createAlongFieldsClasses : List String :=
  ["popup-content", "popup-field", "popup-label", "popup-input", "title-input",
   "color-input", "popup-textarea", "points-input", "computed-value",
   "along-percent-input", "along-distance-input", "desc-input",
   "popup-buttons", "popup-btn", "popup-btn-save", "popup-btn-delete"]

/-- A `div.querySelector('.c')` hit test over the class list of a
generated popup. -/
def querySelectorHit (classes : List String) (c : String) : Bool :=
  classes.contains c

/-- Whether `setupAlongInputs` in `elements.js` attaches the percent and
distance input listeners: its guard
`if (!percentInput || !distanceInput || !pointDisplay) return;` requires
all three selector hits, including `.along-point-display`. -/
def setupAlongInputs (classes : List String) : Bool :=
  querySelectorHit classes "along-percent-input" &&
  querySelectorHit classes "along-distance-input" &&
  querySelectorHit classes "along-point-display"

/-- Update a measurement feature from popup inputs
(`updateMeasurementFromPopup` in `elements.js`): only
`measurement-distance` and `measurement-bearing` are handled — the
coordinates, `distanceM`/`distanceKm`, and for bearings the normalized
`bearing` and its cardinal are recomputed (`mdist` is the external
`state.map.distance` and `tbear` the external `turf.bearing`); every other
measurement type, `measurement-along` included, is returned unchanged. -/
def updateMeasurementFromPopup (mdist : PointQ → PointQ → ℚ) (tbear : PointQ → PointQ → ℚ)
    (startLat startLng endLat endLng : Option ℚ) (f : Feature) : Feature :=
  let props := f.properties
  let ty := props.type
  if ty = "measurement-distance" ∨ ty = "measurement-bearing" then
    match startLat, startLng, endLat, endLng with
    | some sla, some sln, some ela, some eln =>
        let newCoords : List Pos := [⟨sln, sla⟩, ⟨eln, ela⟩]
        let newGeom : Geom :=
          match f.geometry with
          | .geometryCollection gs =>
              .geometryCollection
                (match gs with
                 | _ :: rest => PrimGeom.lineString newCoords :: rest
                 | [] => [])
          | _ => .prim (.lineString newCoords)
        let distance := mdist ⟨sla, sln⟩ ⟨ela, eln⟩
        let props1 := { props with
          distanceM := some distance
          distanceKm := some (distance / 1000) }
        let props2 :=
          if ty = "measurement-bearing" then
            let bearing := jsMod (tbear ⟨sla, sln⟩ ⟨ela, eln⟩ + 360) 360
            { props1 with
                bearing := some bearing
                cardinal := some (getCardinalDirection bearing) }
          else props1
        { f with geometry := newGeom, properties := props2 }
    | _, _, _, _ => f
  else f

/-- C8: evaluation at the failing behavior — the invariant
`alongPercent * lengthM / 100 = alongDistance` holds exactly at creation
(`calculateAlong` sets percent 50 and distance `lengthM / 2`), and it can
never be broken by an edit because no edit path touches the along fields:
`setupAlongInputs` never attaches the percent/distance listeners (its
guard requires an `.along-point-display` element that `createAlongFields`
does not generate), and `updateMeasurementFromPopup` returns an along
feature unchanged — contradicting the claim that editing either field
recomputes the other and `alongPoint`. -/
theorem along_invariant_and_dead_popup_sync :
    (∀ (pts : List PointQ) (lengthKm : ℚ) (halfwayPoint : PointQ),
      (calculateAlong pts lengthKm halfwayPoint).alongPercent = some 50 ∧
      (calculateAlong pts lengthKm halfwayPoint).alongDistance = some (lengthKm * 1000 / 2) ∧
      (calculateAlong pts lengthKm halfwayPoint).lengthM = some (lengthKm * 1000) ∧
      50 * (lengthKm * 1000) / 100 = lengthKm * 1000 / 2) ∧
    setupAlongInputs createAlongFieldsClasses = false ∧
    (∀ (mdist tbear : PointQ → PointQ → ℚ) (sla sln ela eln : Option ℚ) (f : Feature),
      f.properties.type = "measurement-along" →
      updateMeasurementFromPopup mdist tbear sla sln ela eln f = f) := by
  refine ⟨?_, by decide, ?_⟩
  · intro pts lengthKm halfwayPoint
    exact ⟨rfl, rfl, rfl, by ring⟩
  · intro mdist tbear sla sln ela eln f hty
    simp [updateMeasurementFromPopup, hty]

/-- Witness for the C8 theorem: a concrete along feature is returned
unchanged by the popup update. -/
theorem along_invariant_and_dead_popup_sync_witness :
    updateMeasurementFromPopup (fun _ _ => 0) (fun _ _ => 0) none none none none
      ⟨some "m1", .geometryCollection [.lineString [⟨0, 0⟩, ⟨1, 0⟩], .point ⟨(1 : ℚ)/2, 0⟩],
        { type := "measurement-along" }⟩ =
    ⟨some "m1", .geometryCollection [.lineString [⟨0, 0⟩, ⟨1, 0⟩], .point ⟨(1 : ℚ)/2, 0⟩],
      { type := "measurement-along" }⟩ :=
  along_invariant_and_dead_popup_sync.2.2 (fun _ _ => 0) (fun _ _ => 0) none none none none
    ⟨some "m1", .geometryCollection [.lineString [⟨0, 0⟩, ⟨1, 0⟩], .point ⟨(1 : ℚ)/2, 0⟩],
      { type := "measurement-along" }⟩ rfl


/-- A latitude/longitude pair over the reals, for the geodesy of
`utils.js`. -/
structure PointR where
  lat : ℝ
  lng : ℝ

/-- JavaScript `Math.atan2(y, x)`: the argument of the complex number
`x + y i`, in `(-π, π]`. -/
noncomputable def atan2 (y x : ℝ) : ℝ := Complex.arg ⟨x, y⟩

/-- Earth's mean radius in meters (`R = 6371e3` in `calculateDestination`). -/
def earthRadius : ℝ := 6371000

/-- Destination point from start, distance (m) and bearing (degrees) —
`calculateDestination` in `utils.js`, the direct great-circle formula. -/
noncomputable def calculateDestination (start : PointR) (distance bearing : ℝ) : PointR :=
  let φ1 := start.lat * Real.pi / 180
  let lam1 := start.lng * Real.pi / 180
  let θ := bearing * Real.pi / 180
  let φ2 := Real.arcsin (Real.sin φ1 * Real.cos (distance / earthRadius) +
    Real.cos φ1 * Real.sin (distance / earthRadius) * Real.cos θ)
  let lam2 := lam1 + atan2
    (Real.sin θ * Real.sin (distance / earthRadius) * Real.cos φ1)
    (Real.cos (distance / earthRadius) - Real.sin φ1 * Real.sin φ2)
  { lat := φ2 * 180 / Real.pi, lng := lam2 * 180 / Real.pi }

/-- Modelled from the spec: the geometry library's `bearing(a, b)`
(§4.1 — "`bearing(a,b)` is its inverse"; the library itself is an
external collaborator whose source is not in the repository).  This is
the standard initial great-circle bearing
`atan2(sin Δλ cos φ2, cos φ1 sin φ2 − sin φ1 cos φ2 cos Δλ)` converted to
degrees, the inverse of the direct formula over the same sphere. -/
noncomputable def turfBearing (a b : PointR) : ℝ :=
  let φ1 := a.lat * Real.pi / 180
  let φ2 := b.lat * Real.pi / 180
  let dlam := (b.lng - a.lng) * Real.pi / 180
  (atan2 (Real.sin dlam * Real.cos φ2)
    (Real.cos φ1 * Real.sin φ2 - Real.sin φ1 * Real.cos φ2 * Real.cos dlam)) * 180 / Real.pi

theorem atan2_inverse_core (φ1 δ θr s y0 x0 : ℝ)
    (hφ : 0 < Real.cos φ1) (hδ0 : 0 < δ) (hδπ : δ < Real.pi)
    (hs : s = Real.sin φ1 * Real.cos δ + Real.cos φ1 * Real.sin δ * Real.cos θr)
    (hy : y0 = Real.sin θr * Real.sin δ * Real.cos φ1)
    (hx : x0 = Real.cos δ - Real.sin φ1 * Real.sin (Real.arcsin s))
    (hs2 : s ^ 2 < 1)
    (hθr1 : -Real.pi < θr) (hθr2 : θr ≤ Real.pi) :
    atan2 (Real.sin (atan2 y0 x0) * Real.cos (Real.arcsin s))
      (Real.cos φ1 * Real.sin (Real.arcsin s) -
        Real.sin φ1 * Real.cos (Real.arcsin s) * Real.cos (atan2 y0 x0)) = θr := by
  have h1 := Real.sin_sq_add_cos_sq φ1
  have h2 := Real.sin_sq_add_cos_sq δ
  have h3 := Real.sin_sq_add_cos_sq θr
  have hC : 0 < Real.sin δ := Real.sin_pos_of_pos_of_lt_pi hδ0 hδπ
  have hs1 : -1 ≤ s := by nlinarith
  have hs1' : s ≤ 1 := by nlinarith
  have hsin2 : Real.sin (Real.arcsin s) = s := Real.sin_arcsin hs1 hs1'
  have hcos2 : Real.cos (Real.arcsin s) = Real.sqrt (1 - s ^ 2) := Real.cos_arcsin s
  have hq0 : 0 < 1 - s ^ 2 := by nlinarith
  have hsq : 0 < Real.sqrt (1 - s ^ 2) := Real.sqrt_pos.mpr hq0
  have hxs : x0 = Real.cos δ - Real.sin φ1 * s := by rw [hx, hsin2]
  set w := Real.cos δ * Real.cos φ1 - Real.sin φ1 * Real.sin δ * Real.cos θr with hw
  have hxw : x0 = Real.cos φ1 * w := by
    rw [hxs, hs, hw]; linear_combination (- Real.cos δ) * h1
  have hkey : w ^ 2 + (Real.sin θr * Real.sin δ) ^ 2 = 1 - s ^ 2 := by
    rw [hs, hw]
    linear_combination ((Real.cos δ) ^ 2 + (Real.sin δ) ^ 2 * (Real.cos θr) ^ 2) * h1 +
      (Real.sin δ) ^ 2 * h3 + h2
  have hnormSq : Complex.normSq ⟨x0, y0⟩ = (Real.cos φ1) ^ 2 * (1 - s ^ 2) := by
    rw [Complex.normSq_mk, hxw, hy]
    linear_combination (Real.cos φ1) ^ 2 * hkey
  have hz0 : (⟨x0, y0⟩ : ℂ) ≠ 0 := by
    rw [← Complex.normSq_pos, hnormSq]
    positivity
  have habs : Complex.abs ⟨x0, y0⟩ = Real.cos φ1 * Real.sqrt (1 - s ^ 2) := by
    rw [Complex.abs_apply, hnormSq, Real.sqrt_mul (sq_nonneg _), Real.sqrt_sq hφ.le]
  have hcosdl : Real.cos (atan2 y0 x0) = x0 / (Real.cos φ1 * Real.sqrt (1 - s ^ 2)) := by
    rw [atan2, Complex.cos_arg hz0, habs]
  have hsindl : Real.sin (atan2 y0 x0) = y0 / (Real.cos φ1 * Real.sqrt (1 - s ^ 2)) := by
    rw [atan2, Complex.sin_arg, habs]
  have hY : Real.sin (atan2 y0 x0) * Real.cos (Real.arcsin s) =
      Real.sin θr * Real.sin δ := by
    rw [hsindl, hcos2, hy]
    field_simp
    ring
  have hX : Real.cos φ1 * Real.sin (Real.arcsin s) -
      Real.sin φ1 * Real.cos (Real.arcsin s) * Real.cos (atan2 y0 x0) =
      Real.sin δ * Real.cos θr := by
    rw [hsin2, hcos2, hcosdl, hxw, mul_div_mul_left _ _ hφ.ne']
    rw [show Real.sin φ1 * Real.sqrt (1 - s ^ 2) * (w / Real.sqrt (1 - s ^ 2)) =
        Real.sin φ1 * w from by field_simp; ring]
    rw [hs, hw]
    linear_combination (Real.sin δ * Real.cos θr) * h1
  rw [hY, hX]
  have hmk : (⟨Real.sin δ * Real.cos θr, Real.sin θr * Real.sin δ⟩ : ℂ) =
      (Real.sin δ : ℝ) * (Complex.cos (θr : ℂ) + Complex.sin (θr : ℂ) * Complex.I) := by
    apply Complex.ext <;>
      simp only [Complex.mul_re, Complex.mul_im, Complex.add_re, Complex.add_im,
        Complex.ofReal_re, Complex.ofReal_im, Complex.I_re, Complex.I_im,
        Complex.cos_ofReal_re, Complex.cos_ofReal_im, Complex.sin_ofReal_re,
        Complex.sin_ofReal_im] <;> ring
  rw [atan2, hmk, Complex.arg_mul_cos_add_sin_mul_I hC ⟨hθr1, hθr2⟩]


set_option maxHeartbeats 1000000 in
/-- C9: as amended — for every start point strictly inside the poles
(`|lat| < 90`), every distance with `0 < d < π·R`, every bearing in
`[0, 360)`, and a destination that is not a pole, the bearing from the
start to `calculateDestination` equals the input bearing exactly modulo
360 (over the reals the inverse identity is exact, hence within any
tolerance). -/
theorem bearing_destination_inverse (a : PointR) (d θ : ℝ)
    (hlat : |a.lat| < 90) (hd0 : 0 < d) (hdR : d < Real.pi * earthRadius)
    (hθ0 : 0 ≤ θ) (hθ1 : θ < 360)
    (hpole : |(calculateDestination a d θ).lat| ≠ 90) :
    ∃ k : ℤ, turfBearing a (calculateDestination a d θ) = θ + 360 * k := by
  have hπ : 0 < Real.pi := Real.pi_pos
  have hR : (0 : ℝ) < earthRadius := by norm_num [earthRadius]
  have hδ0 : 0 < d / earthRadius := div_pos hd0 hR
  have hδπ : d / earthRadius < Real.pi := by
    rw [div_lt_iff hR]
    nlinarith
  have hφcos : 0 < Real.cos (a.lat * Real.pi / 180) := by
    apply Real.cos_pos_of_mem_Ioo
    have h90 := abs_lt.mp hlat
    constructor
    · nlinarith [h90.1]
    · nlinarith [h90.2]
  have h1 := Real.sin_sq_add_cos_sq (a.lat * Real.pi / 180)
  have h2 := Real.sin_sq_add_cos_sq (d / earthRadius)
  have h3 := Real.sin_sq_add_cos_sq (θ * Real.pi / 180)
  have hid :
      (Real.sin (a.lat * Real.pi / 180) * Real.cos (d / earthRadius) +
        Real.cos (a.lat * Real.pi / 180) * Real.sin (d / earthRadius) *
          Real.cos (θ * Real.pi / 180)) ^ 2 +
      (Real.sin (a.lat * Real.pi / 180) * Real.sin (d / earthRadius) -
        Real.cos (a.lat * Real.pi / 180) * Real.cos (d / earthRadius) *
          Real.cos (θ * Real.pi / 180)) ^ 2 +
      (Real.cos (a.lat * Real.pi / 180) * Real.sin (θ * Real.pi / 180)) ^ 2 = 1 := by
    linear_combination
      (Real.sin (a.lat * Real.pi / 180) ^ 2 +
        Real.cos (a.lat * Real.pi / 180) ^ 2 * Real.cos (θ * Real.pi / 180) ^ 2) * h2 +
      Real.cos (a.lat * Real.pi / 180) ^ 2 * h3 + h1
  have hsle :
      (Real.sin (a.lat * Real.pi / 180) * Real.cos (d / earthRadius) +
        Real.cos (a.lat * Real.pi / 180) * Real.sin (d / earthRadius) *
          Real.cos (θ * Real.pi / 180)) ^ 2 ≤ 1 := by
    nlinarith [hid, sq_nonneg (Real.sin (a.lat * Real.pi / 180) * Real.sin (d / earthRadius) -
        Real.cos (a.lat * Real.pi / 180) * Real.cos (d / earthRadius) *
          Real.cos (θ * Real.pi / 180)),
      sq_nonneg (Real.cos (a.lat * Real.pi / 180) * Real.sin (θ * Real.pi / 180))]
  have hdlat : (calculateDestination a d θ).lat =
      Real.arcsin (Real.sin (a.lat * Real.pi / 180) * Real.cos (d / earthRadius) +
        Real.cos (a.lat * Real.pi / 180) * Real.sin (d / earthRadius) *
          Real.cos (θ * Real.pi / 180)) * 180 / Real.pi := rfl
  have hS2 :
      (Real.sin (a.lat * Real.pi / 180) * Real.cos (d / earthRadius) +
        Real.cos (a.lat * Real.pi / 180) * Real.sin (d / earthRadius) *
          Real.cos (θ * Real.pi / 180)) ^ 2 < 1 := by
    rcases lt_or_eq_of_le hsle with h | h
    · exact h
    · exfalso
      have hfac : (Real.sin (a.lat * Real.pi / 180) * Real.cos (d / earthRadius) +
            Real.cos (a.lat * Real.pi / 180) * Real.sin (d / earthRadius) *
              Real.cos (θ * Real.pi / 180) - 1) *
          (Real.sin (a.lat * Real.pi / 180) * Real.cos (d / earthRadius) +
            Real.cos (a.lat * Real.pi / 180) * Real.sin (d / earthRadius) *
              Real.cos (θ * Real.pi / 180) + 1) = 0 := by linear_combination h
      rcases mul_eq_zero.mp hfac with h0 | h0
      · have hone : Real.sin (a.lat * Real.pi / 180) * Real.cos (d / earthRadius) +
            Real.cos (a.lat * Real.pi / 180) * Real.sin (d / earthRadius) *
              Real.cos (θ * Real.pi / 180) = 1 := by linarith
        apply hpole
        rw [hdlat, hone, Real.arcsin_one]
        rw [abs_eq (by norm_num : (0:ℝ) ≤ 90)]
        left
        field_simp
        ring
      · have hone : Real.sin (a.lat * Real.pi / 180) * Real.cos (d / earthRadius) +
            Real.cos (a.lat * Real.pi / 180) * Real.sin (d / earthRadius) *
              Real.cos (θ * Real.pi / 180) = -1 := by linarith
        apply hpole
        rw [hdlat, hone, Real.arcsin_neg_one]
        rw [abs_eq (by norm_num : (0:ℝ) ≤ 90)]
        right
        field_simp
        ring
  have e1 : ∀ x : ℝ, (x * 180 / Real.pi) * Real.pi / 180 = x := by
    intro x; field_simp
  have e2 : ∀ x : ℝ, (((a.lng * Real.pi / 180) + x) * 180 / Real.pi - a.lng) * Real.pi / 180 = x := by
    intro x; field_simp; ring
  by_cases hcase : θ ≤ 180
  · refine ⟨0, ?_⟩
    have hcore := atan2_inverse_core (a.lat * Real.pi / 180) (d / earthRadius)
      (θ * Real.pi / 180) _ _ _ hφcos hδ0 hδπ rfl rfl rfl hS2
      (by nlinarith) (by nlinarith)
    simp only [turfBearing, calculateDestination]
    rw [e1, e2, hcore]
    field_simp
  · refine ⟨-1, ?_⟩
    push_neg at hcase
    have hs' : Real.sin (a.lat * Real.pi / 180) * Real.cos (d / earthRadius) +
        Real.cos (a.lat * Real.pi / 180) * Real.sin (d / earthRadius) *
          Real.cos (θ * Real.pi / 180) =
        Real.sin (a.lat * Real.pi / 180) * Real.cos (d / earthRadius) +
        Real.cos (a.lat * Real.pi / 180) * Real.sin (d / earthRadius) *
          Real.cos (θ * Real.pi / 180 - 2 * Real.pi) := by
      rw [Real.cos_sub_two_pi]
    have hy' : Real.sin (θ * Real.pi / 180) * Real.sin (d / earthRadius) *
          Real.cos (a.lat * Real.pi / 180) =
        Real.sin (θ * Real.pi / 180 - 2 * Real.pi) * Real.sin (d / earthRadius) *
          Real.cos (a.lat * Real.pi / 180) := by
      rw [Real.sin_sub_two_pi]
    have hS2' :
        (Real.sin (a.lat * Real.pi / 180) * Real.cos (d / earthRadius) +
          Real.cos (a.lat * Real.pi / 180) * Real.sin (d / earthRadius) *
            Real.cos (θ * Real.pi / 180)) ^ 2 < 1 := hS2
    have hcore := atan2_inverse_core (a.lat * Real.pi / 180) (d / earthRadius)
      (θ * Real.pi / 180 - 2 * Real.pi) _ _ _ hφcos hδ0 hδπ hs' hy' rfl hS2'
      (by nlinarith) (by nlinarith)
    simp only [turfBearing, calculateDestination]
    rw [e1, e2, hcore]
    field_simp
    ring


set_option maxHeartbeats 1000000 in
/-- C9 counterexample: starting at the north pole (lat 90) with distance
`R` (one radian of arc) and bearing 90, the bearing from the start to the
computed destination is 180, not 90 modulo 360 within 1e-6 — the claimed
inverse law fails for start points at a pole. -/
theorem bearing_fails_at_pole :
    ¬ ∃ k : ℤ, |turfBearing ⟨90, 0⟩ (calculateDestination ⟨90, 0⟩ earthRadius 90) -
        90 - 360 * (k : ℝ)| ≤ 1e-6 := by
  have hπ : 0 < Real.pi := Real.pi_pos
  have h1pi : (1 : ℝ) < Real.pi := by nlinarith [Real.pi_gt_three]
  have hφ1 : (90 : ℝ) * Real.pi / 180 = Real.pi / 2 := by ring
  have hδ : earthRadius / earthRadius = (1 : ℝ) := by norm_num [earthRadius]
  have hsin1 : 0 < Real.sin 1 :=
    Real.sin_pos_of_pos_of_lt_pi (by norm_num) (by nlinarith [Real.pi_gt_three])
  have harc : Real.arcsin (Real.cos 1) = Real.pi / 2 - 1 := by
    rw [← Real.sin_pi_div_two_sub, Real.arcsin_sin (by nlinarith) (by nlinarith)]
  have hdest : calculateDestination ⟨90, 0⟩ earthRadius 90 =
      ⟨(Real.pi / 2 - 1) * 180 / Real.pi, 0⟩ := by
    simp only [calculateDestination]
    simp only [hδ, hφ1, Real.sin_pi_div_two, Real.cos_pi_div_two]
    have hS : (1 : ℝ) * Real.cos 1 + 0 * Real.sin 1 * 0 = Real.cos 1 := by ring
    rw [hS, harc]
    have hx0 : Real.cos 1 - 1 * Real.sin (Real.arcsin (Real.cos 1)) = 0 := by
      rw [Real.sin_arcsin (Real.neg_one_le_cos 1) (Real.cos_le_one 1)]
      ring
    have hy0 : (1 : ℝ) * Real.sin 1 * 0 = 0 := by ring
    rw [show Real.arcsin (Real.cos 1) = Real.pi / 2 - 1 from harc] at hx0
    simp only [PointR.mk.injEq]
    constructor
    · trivial
    · rw [show (1 : ℝ) * Real.sin 1 * 0 = 0 from by ring]
      rw [show Real.cos 1 - 1 * Real.sin (Real.pi / 2 - 1) = 0 from hx0]
      rw [show atan2 0 0 = 0 from by
        rw [atan2]
        rw [show (⟨0, 0⟩ : ℂ) = 0 from rfl]
        exact Complex.arg_zero]
      ring
  rw [hdest]
  have hbear : turfBearing ⟨90, 0⟩ ⟨(Real.pi / 2 - 1) * 180 / Real.pi, 0⟩ = 180 := by
    simp only [turfBearing]
    have e1 : ((Real.pi / 2 - 1) * 180 / Real.pi) * Real.pi / 180 = Real.pi / 2 - 1 := by
      field_simp
      ring
    have e2 : ((0 : ℝ) - 0) * Real.pi / 180 = 0 := by ring
    rw [e1, e2, hφ1, Real.sin_zero, Real.cos_zero, Real.sin_pi_div_two, Real.cos_pi_div_two]
    rw [show (0 : ℝ) * Real.cos (Real.pi / 2 - 1) = 0 from by ring]
    rw [show (0 : ℝ) * Real.sin (Real.pi / 2 - 1) - 1 * Real.cos (Real.pi / 2 - 1) * 1 =
        -Real.sin 1 from by rw [Real.cos_pi_div_two_sub]; ring]
    rw [show atan2 0 (-Real.sin 1) = Real.pi from by
      rw [atan2]
      rw [show (⟨-Real.sin 1, 0⟩ : ℂ) = ((-Real.sin 1 : ℝ) : ℂ) from by
        apply Complex.ext
        · simp only [Complex.ofReal_re]
        · simp only [Complex.ofReal_im]]
      exact Complex.arg_ofReal_of_neg (by linarith)]
    field_simp
  rw [hbear]
  rintro ⟨k, hk⟩
  rw [abs_le] at hk
  have hk1 : (0 : ℝ) < (k : ℝ) := by nlinarith [hk.1, hk.2]
  have hk2 : (0 : ℤ) < k := by exact_mod_cast hk1
  have hk3 : (1 : ℝ) ≤ (k : ℝ) := by exact_mod_cast hk2
  nlinarith [hk.1, hk.2]


/-- Witness for the amended C9 theorem: from the equator origin, distance
`R`, bearing 90, the inverse identity holds (via the theorem, all
hypotheses discharged concretely). -/
theorem bearing_destination_inverse_witness :
    ∃ k : ℤ, turfBearing ⟨0, 0⟩ (calculateDestination ⟨0, 0⟩ earthRadius 90) =
      90 + 360 * (k : ℝ) := by
  have h0 : (calculateDestination ⟨0, 0⟩ earthRadius 90).lat = 0 := by
    simp only [calculateDestination]
    norm_num
    rw [show (90 : ℝ) * Real.pi / 180 = Real.pi / 2 from by ring, Real.cos_pi_div_two]
    norm_num [Real.arcsin_zero]
  refine bearing_destination_inverse ⟨0, 0⟩ earthRadius 90 (by norm_num)
    (by norm_num [earthRadius]) (by nlinarith [Real.pi_gt_three,
      show (0 : ℝ) < earthRadius from by norm_num [earthRadius]])
    (by norm_num) (by norm_num) ?_
  rw [h0]
  norm_num

end Cartouille
